import Mathlib

/-!
RV-3028-C7 real-time-clock driver.

A shallow embedding of `src/RV3028C7.cpp`.

* Bytes (`uint8_t`), 16-bit words (`uint16_t`) and characters (`char`) are natural
  numbers; where the C++ code converts a wider value to `uint8_t` the embedding
  writes `% 256`, and `% 65536` for `uint16_t`.
* A C string is the list of its character codes; `str[i]` is `str.getD i 0`, so
  that the terminating NUL is read at the position just after the last character.
* The object state of the class `RV3028C7` is the structure `RV3028C7`; a member
  function is a function that takes the state last and returns the state with
  its result.
-/

namespace Rtc

/-! ## Data model -/

/-- Modelled from the spec: the header `RV3028C7.h`, which declares the
enumeration `DateTimeComponent_t`, is not among the sources. The spec fixes the
seven selectors and their order: seconds, minutes, hours, day-of-week,
day-of-month, month, year. -/
inductive DateTimeComponent_t where
  | DATETIME_SECOND
  | DATETIME_MINUTE
  | DATETIME_HOUR
  | DATETIME_DAY_OF_WEEK
  | DATETIME_DAY_OF_MONTH
  | DATETIME_MONTH
  | DATETIME_YEAR
  deriving DecidableEq, Repr

open DateTimeComponent_t

/-- Modelled from the spec: the array index that a selector of
`DateTimeComponent_t` stands for (the position of its field in the record). -/
def DateTimeComponent_t.toNat : DateTimeComponent_t → Nat
  | DATETIME_SECOND => 0
  | DATETIME_MINUTE => 1
  | DATETIME_HOUR => 2
  | DATETIME_DAY_OF_WEEK => 3
  | DATETIME_DAY_OF_MONTH => 4
  | DATETIME_MONTH => 5
  | DATETIME_YEAR => 6

/-- Modelled from the spec: the number of fields of the record, declared in the
absent header. -/
def DATETIME_COMPONENTS : Nat := 7

/-- Modelled from the spec: the weekday constant `SUN` of the absent
enumeration `DayOfWeek_t` (weekday index 0 = Sunday .. 6 = Saturday). -/
def SUN : Nat := 0

/-- The array `uint8_t _dateTime[DATETIME_COMPONENTS]`, one named field per
index 0..6. -/
structure DateTime where
  second : Nat
  minute : Nat
  hour : Nat
  dayOfWeek : Nat
  dayOfMonth : Nat
  month : Nat
  year : Nat
  deriving DecidableEq, Repr

/-- The array read `a[i]`. -/
def DateTime.get (a : DateTime) (i : Nat) : Nat :=
  match i with
  | 0 => a.second
  | 1 => a.minute
  | 2 => a.hour
  | 3 => a.dayOfWeek
  | 4 => a.dayOfMonth
  | 5 => a.month
  | 6 => a.year
  | _ => 0

/-- The array write `a[i] = v` (an index outside 0..6 is outside the array and
leaves it as it is). -/
def DateTime.set (a : DateTime) (i : Nat) (v : Nat) : DateTime :=
  match i with
  | 0 => { a with second := v }
  | 1 => { a with minute := v }
  | 2 => { a with hour := v }
  | 3 => { a with dayOfWeek := v }
  | 4 => { a with dayOfMonth := v }
  | 5 => { a with month := v }
  | 6 => { a with year := v }
  | _ => a

/-- Modelled from the spec: the two-wire bus primitive (`TwoWire`) with the
clock chip attached; it is a collaborator outside the sources. `regs` is the
register file of the chip, addressed by register address, and `status` is the
completion code that `endTransmission` reports (0 for a clean completion). -/
structure TwoWire where
  regs : Nat → Nat
  status : Nat

/-- The object state of the driver: the bus it talks to (`_i2cPort`) and the
record (`_dateTime`). -/
structure RV3028C7 where
  _i2cPort : TwoWire
  _dateTime : DateTime

/-! ## BCD codec -/

/-- `uint8_t convertToDecimal(uint8_t bcd)` -/
def convertToDecimal (bcd : Nat) : Nat :=
  ((bcd / 16 * 10) + (bcd % 16)) % 256

/-- `uint8_t convertToBCD(uint8_t decimal)` -/
def convertToBCD (decimal : Nat) : Nat :=
  ((decimal / 10 * 16) + (decimal % 10)) % 256

/-! ## Date/time setter -/

/-- `bool setDateTime(uint16_t year, uint8_t month, uint8_t dayOfMonth,
DayOfWeek_t dayOfWeek, uint8_t hour, uint8_t minute, uint8_t second)`; the
argument of `convertToBCD` is converted to `uint8_t`. -/
def setDateTime (year month dayOfMonth dayOfWeek hour minute second : Nat)
    (self : RV3028C7) : Bool × RV3028C7 :=
  if year < 2000 then (false, self) else
  let self := { self with _dateTime := self._dateTime.set DATETIME_YEAR.toNat (convertToBCD ((year - 2000) % 256)) }
  if month < 1 ∨ month > 12 then (false, self) else
  let self := { self with _dateTime := self._dateTime.set DATETIME_MONTH.toNat (convertToBCD month) }
  if dayOfMonth < 1 ∨ dayOfMonth > 31 then (false, self) else
  let self := { self with _dateTime := self._dateTime.set DATETIME_DAY_OF_MONTH.toNat (convertToBCD dayOfMonth) }
  if dayOfWeek > 6 then (false, self) else
  let self := { self with _dateTime := self._dateTime.set DATETIME_DAY_OF_WEEK.toNat (convertToBCD (dayOfWeek % 256)) }
  if hour > 23 then (false, self) else
  let self := { self with _dateTime := self._dateTime.set DATETIME_HOUR.toNat (convertToBCD hour) }
  if minute > 59 then (false, self) else
  let self := { self with _dateTime := self._dateTime.set DATETIME_MINUTE.toNat (convertToBCD minute) }
  if second > 59 then (false, self) else
  let self := { self with _dateTime := self._dateTime.set DATETIME_SECOND.toNat (convertToBCD second) }
  (true, self)

/-! ## C library text primitives -/

/-- The character `str[i]` of a C string. -/
def charAt (str : List Nat) (i : Nat) : Nat :=
  str.getD i 0

/-- The character codes of a text, for writing a C string literal. -/
def cstr (s : String) : List Nat :=
  s.toList.map Char.toNat

/-- The C library predicate `isspace` in the C locale. -/
def isspace (c : Nat) : Bool :=
  c = ' '.toNat ∨ (9 ≤ c ∧ c ≤ 13)

/-- The C library predicate `isdigit`. -/
def isdigit (c : Nat) : Bool :=
  '0'.toNat ≤ c ∧ c ≤ '9'.toNat

/-- The digit loop of `atoi`: it consumes decimal digits and stops at the first
character that is not one (the terminating NUL included). -/
def atoiDigits (acc : Int) : List Nat → Int
  | [] => acc
  | c :: cs => if isdigit c then atoiDigits (acc * 10 + ((c : Int) - 48)) cs else acc

/-- The C library function `atoi`: leading white space is skipped, then one
optional sign is read, then the decimal digits. -/
def atoi (str : List Nat) : Int :=
  match str.dropWhile isspace with
  | [] => 0
  | c :: cs =>
    if c = '-'.toNat then - atoiDigits 0 cs
    else if c = '+'.toNat then atoiDigits 0 cs
    else atoiDigits 0 (c :: cs)

/-- The statement `uint8_t x = atoi(components)` for the three-character buffer
`components = {c0, c1, NUL}`: the `int` is converted to `uint8_t`. -/
def atoiComponents (c0 c1 : Nat) : Nat :=
  (atoi [c0, c1, 0] % 256).toNat

/-- The decimal digits of a number, most significant first (as characters). -/
def utoaAux : Nat → Nat → List Nat
  | 0, _ => []
  | fuel + 1, n =>
    if n < 10 then ['0'.toNat + n] else utoaAux fuel (n / 10) ++ ['0'.toNat + n % 10]

/-- The conversion `%d` of `sprintf` for a value that is not negative. -/
def utoa (n : Nat) : List Nat :=
  utoaAux (n + 1) n

/-- The conversion `%02d` of `sprintf` for a value that is not negative: the
decimal digits, padded on the left with zeros to a width of two. -/
def sprintf02d (n : Nat) : List Nat :=
  List.replicate (2 - (utoa n).length) '0'.toNat ++ utoa n

/-! ## Transport layer -/

/-- Modelled from the spec: `requestFrom` after the start address has been
written hands over `length` bytes, the contents of the consecutive registers
from the start address on (all requested bytes are assumed delivered). -/
def TwoWire.requestFrom (bus : TwoWire) (startAddress length : Nat) : List Nat :=
  (List.range length).map (fun i => bus.regs (startAddress + i))

/-- Modelled from the spec: `endTransmission` of a write transaction whose
first byte was the start address and whose following bytes were `data`. It
reports the completion code; on a clean completion the chip holds the bytes in
the consecutive registers from the start address on, otherwise the model leaves
the registers as they were. -/
def TwoWire.endTransmission (bus : TwoWire) (startAddress : Nat) (data : List Nat) :
    Nat × TwoWire :=
  (bus.status,
   if bus.status = 0 then
     { bus with regs := fun a =>
         if startAddress ≤ a ∧ a < startAddress + data.length
         then data.getD (a - startAddress) 0 else bus.regs a }
   else bus)

/-- The loop `for (uint8_t i = 0; i < length; i++) destination[i] = read();` of
`readBytesFromRegisters`, over the bytes `rx` handed over by `requestFrom`
(`read` gives -1, the byte 255, once they are used up). -/
def readLoop (rx : List Nat) (length : Nat) : Nat → Nat → DateTime → DateTime
  | 0, _, destination => destination
  | fuel + 1, i, destination =>
    if i < length then readLoop rx length fuel (i + 1) (destination.set i (rx.getD i 255))
    else destination

/-- `bool readBytesFromRegisters(uint8_t startAddress, uint8_t *destination,
uint8_t length)`; the result carries the array `destination` points to. The
loop body runs `length` times, so a fuel of `length + 1` lets the loop reach the
test that ends it. -/
def readBytesFromRegisters (startAddress : Nat) (destination : DateTime) (length : Nat)
    (self : RV3028C7) : Bool × DateTime :=
  let rx := self._i2cPort.requestFrom startAddress length
  let destination := readLoop rx length (length + 1) 0 destination
  (decide (self._i2cPort.status = 0), destination)

/-- The loop `for (uint8_t i = 0; i < length; i++) write(values[i]);` of
`writeBytesToRegisters`, collecting the bytes written after the start address. -/
def writeLoop (values : DateTime) (length : Nat) : Nat → Nat → List Nat → List Nat
  | 0, _, tx => tx
  | fuel + 1, i, tx =>
    if i < length then writeLoop values length fuel (i + 1) (tx ++ [values.get i]) else tx

/-- `bool writeBytesToRegisters(uint8_t startAddress, uint8_t *values,
uint8_t length)`; the fuel of the loop is `length + 1`, as for the read. -/
def writeBytesToRegisters (startAddress : Nat) (values : DateTime) (length : Nat)
    (self : RV3028C7) : Bool × RV3028C7 :=
  let tx := writeLoop values length (length + 1) 0 []
  let r := self._i2cPort.endTransmission startAddress tx
  (decide (r.1 = 0), { self with _i2cPort := r.2 })

/-- `uint8_t readByteFromRegister(uint8_t address)` -/
def readByteFromRegister (address : Nat) (self : RV3028C7) : Nat :=
  (self._i2cPort.requestFrom address 1).getD 0 255

/-- `bool writeByteToRegister(uint8_t address, uint8_t value)` -/
def writeByteToRegister (address value : Nat) (self : RV3028C7) : Bool × RV3028C7 :=
  let r := self._i2cPort.endTransmission address [value]
  (decide (r.1 = 0), { self with _i2cPort := r.2 })

/-! ## Driver operations

The register addresses `REG_CLOCK_SECONDS` and `REG_CONTROL_2` are constants of
the header, which is not among the sources; the operations take them as their
first argument. -/

/-- `bool begin(TwoWire &wirePort)`: in `value & 0x01 == 0x00` the comparison
binds tighter than `&`, and its result is the integer 0 or 1. -/
def begin (REG_CONTROL_2 : Nat) (wirePort : TwoWire) (self : RV3028C7) : Bool × RV3028C7 :=
  let self := { self with _i2cPort := wirePort }
  let value := readByteFromRegister REG_CONTROL_2 self
  if (value &&& (if (0x01 : Nat) = 0x00 then 1 else 0)) ≠ 0 then (true, self) else (false, self)

/-- `bool synchronize()` -/
def synchronize (REG_CLOCK_SECONDS : Nat) (self : RV3028C7) : Bool × RV3028C7 :=
  writeBytesToRegisters REG_CLOCK_SECONDS self._dateTime DATETIME_COMPONENTS self

/-- `void setDateTimeComponent(DateTimeComponent_t component, uint8_t value)` -/
def setDateTimeComponent (REG_CLOCK_SECONDS : Nat) (component : DateTimeComponent_t)
    (value : Nat) (self : RV3028C7) : RV3028C7 :=
  let r := readBytesFromRegisters REG_CLOCK_SECONDS self._dateTime DATETIME_COMPONENTS self
  let self := { self with _dateTime := r.2 }
  { self with _dateTime := self._dateTime.set component.toNat (convertToBCD value) }

/-- `char *getCurrentDateTime()`: the text that `sprintf` produces with the
format `"20%02d-%02d-%02dT%02d:%02d:%02d"` (without its terminating NUL). -/
def getCurrentDateTime (REG_CLOCK_SECONDS : Nat) (self : RV3028C7) : List Nat × RV3028C7 :=
  let r := readBytesFromRegisters REG_CLOCK_SECONDS self._dateTime DATETIME_COMPONENTS self
  let self := { self with _dateTime := r.2 }
  (cstr "20" ++ sprintf02d (convertToDecimal (self._dateTime.get DATETIME_YEAR.toNat))
    ++ cstr "-" ++ sprintf02d (convertToDecimal (self._dateTime.get DATETIME_MONTH.toNat))
    ++ cstr "-" ++ sprintf02d (convertToDecimal (self._dateTime.get DATETIME_DAY_OF_MONTH.toNat))
    ++ cstr "T" ++ sprintf02d (convertToDecimal (self._dateTime.get DATETIME_HOUR.toNat))
    ++ cstr ":" ++ sprintf02d (convertToDecimal (self._dateTime.get DATETIME_MINUTE.toNat))
    ++ cstr ":" ++ sprintf02d (convertToDecimal (self._dateTime.get DATETIME_SECOND.toNat)),
   self)

/-! ## Text parsers -/

/-- The loop `for (uint8_t i = 2, j = 0; i < 20; i += 3, j++)` of
`setDateTimeFromISO8601`, filling `buffer`. -/
def iso8601Loop (iso8601 : List Nat) : Nat → Nat → Nat → List Nat → List Nat
  | 0, _, _, buffer => buffer
  | fuel + 1, i, j, buffer =>
    if i < 20 then
      iso8601Loop iso8601 fuel (i + 3) (j + 1)
        (buffer.set j (atoiComponents (charAt iso8601 i) (charAt iso8601 (i + 1))))
    else buffer

/-- `void setDateTimeFromISO8601(const char *iso8601)`; the loop body runs six
times, so a fuel of 7 lets the loop reach the test `i < 20` that ends it. -/
def setDateTimeFromISO8601 (iso8601 : List Nat) (self : RV3028C7) : RV3028C7 :=
  let buffer := iso8601Loop iso8601 7 2 0 [0, 0, 0, 0, 0, 0]
  (setDateTime ((2000 + buffer.getD 0 0) % 65536) (buffer.getD 1 0) (buffer.getD 2 0) SUN
    (buffer.getD 3 0) (buffer.getD 4 0) (buffer.getD 5 0) self).2

/-- The loop `for (uint8_t i = counter, j = 0; j < 3; i += 3, j++)` of
`setDateTimeFromHTTPHeader`, filling `buffer`. -/
def httpTimeLoop (str : List Nat) : Nat → Nat → Nat → List Nat → List Nat
  | 0, _, _, buffer => buffer
  | fuel + 1, i, j, buffer =>
    if j < 3 then
      httpTimeLoop str fuel (i + 3) (j + 1)
        (buffer.set j (atoiComponents (charAt str i) (charAt str (i + 1))))
    else buffer

/-- The `if` cascade of `setDateTimeFromHTTPHeader` that reads the weekday
at the cursor (source lines 79-104). -/
def httpDayOfWeek (str : List Nat) (counter : Nat) : Nat :=
  if charAt str counter = 'T'.toNat then
    if charAt str (counter + 1) = 'u'.toNat then 2 else 4
  else if charAt str counter = 'S'.toNat then
    if charAt str (counter + 1) = 'a'.toNat then 6 else 0
  else if charAt str counter = 'M'.toNat then 1
  else if charAt str counter = 'W'.toNat then 3
  else 5

/-- The `if` cascade of `setDateTimeFromHTTPHeader` that reads the month at
the cursor (source lines 114-159). -/
def httpMonth (str : List Nat) (counter : Nat) : Nat :=
  if charAt str counter = 'J'.toNat then
    if charAt str (counter + 1) = 'a'.toNat then 1
    else if charAt str (counter + 2) = 'n'.toNat then 6
    else 7
  else if charAt str counter = 'F'.toNat then 2
  else if charAt str counter = 'M'.toNat then
    if charAt str (counter + 2) = 'r'.toNat then 3 else 5
  else if charAt str counter = 'A'.toNat then
    if charAt str (counter + 1) = 'p'.toNat then 4 else 8
  else if charAt str counter = 'S'.toNat then 9
  else if charAt str counter = 'O'.toNat then 10
  else if charAt str counter = 'N'.toNat then 11
  else 12

/-- `void setDateTimeFromHTTPHeader(const char *str)`; the body of the loop
over the time of day runs three times, so a fuel of 4 lets the loop reach the
test `j < 3` that ends it. -/
def setDateTimeFromHTTPHeader (str : List Nat) (self : RV3028C7) : RV3028C7 :=
  let counter := if charAt str 0 = 'D'.toNat then 6 else 0
  let dayOfWeek := httpDayOfWeek str counter
  let counter := counter + 5
  let dayOfMonth := atoiComponents (charAt str counter) (charAt str (counter + 1))
  let counter := counter + 3
  let month := httpMonth str counter
  let counter := counter + 6
  let year := ((2000 + atoi [charAt str counter, charAt str (counter + 1), 0]) % 65536).toNat
  let counter := counter + 3
  let buffer := httpTimeLoop str 4 counter 0 [0, 0, 0]
  (setDateTime year month dayOfMonth dayOfWeek
    (buffer.getD 0 0) (buffer.getD 1 0) (buffer.getD 2 0) self).2

/-! ## Specification-side vocabulary -/

/-- The record decoded field by field with `convertToDecimal`. -/
def decodeRecord (a : DateTime) : DateTime :=
  { second := convertToDecimal a.second
    minute := convertToDecimal a.minute
    hour := convertToDecimal a.hour
    dayOfWeek := convertToDecimal a.dayOfWeek
    dayOfMonth := convertToDecimal a.dayOfMonth
    month := convertToDecimal a.month
    year := convertToDecimal a.year }

/-- The contents of the seven clock registers of the chip, as a record. -/
def clockRegisters (REG_CLOCK_SECONDS : Nat) (bus : TwoWire) : DateTime :=
  { second := bus.regs (REG_CLOCK_SECONDS + 0)
    minute := bus.regs (REG_CLOCK_SECONDS + 1)
    hour := bus.regs (REG_CLOCK_SECONDS + 2)
    dayOfWeek := bus.regs (REG_CLOCK_SECONDS + 3)
    dayOfMonth := bus.regs (REG_CLOCK_SECONDS + 4)
    month := bus.regs (REG_CLOCK_SECONDS + 5)
    year := bus.regs (REG_CLOCK_SECONDS + 6) }

/-- A driver whose chip holds zero in every register, on a bus that completes
cleanly, with a zeroed record: the start state of the concrete examples. -/
def exampleDriver : RV3028C7 :=
  { _i2cPort := { regs := fun _ => 0, status := 0 }
    _dateTime := ⟨0, 0, 0, 0, 0, 0, 0⟩ }

/-- The number formed by the two characters `str[i]` and `str[i + 1]`, read as
decimal digits. -/
def twoDigits (str : List Nat) (i : Nat) : Nat :=
  (charAt str i - '0'.toNat) * 10 + (charAt str (i + 1) - '0'.toNat)

/-- A text of the shape `YYYY-MM-DDTHH:MM:SS`: nineteen characters, with digits
at the digit positions and the separators `-`, `-`, `T`, `:`, `:` between the
groups. -/
def IsISO8601Shape (s : List Nat) : Prop :=
  s.length = 19
  ∧ (∀ i ∈ [0, 1, 2, 3, 5, 6, 8, 9, 11, 12, 14, 15, 17, 18], isdigit (charAt s i) = true)
  ∧ charAt s 4 = '-'.toNat ∧ charAt s 7 = '-'.toNat ∧ charAt s 10 = 'T'.toNat
  ∧ charAt s 13 = ':'.toNat ∧ charAt s 16 = ':'.toNat

instance (s : List Nat) : Decidable (IsISO8601Shape s) := by
  unfold IsISO8601Shape
  infer_instance

/-- A well-formed text `20YY-MM-DDThh:mm:ss` whose fields are in range: the
shape above, the century digits `20`, month 1-12, day 1-31, hour 0-23, minute
0-59 and second 0-59. -/
def IsISO8601InRange (s : List Nat) : Prop :=
  IsISO8601Shape s
  ∧ charAt s 0 = '2'.toNat ∧ charAt s 1 = '0'.toNat
  ∧ (1 ≤ twoDigits s 5 ∧ twoDigits s 5 ≤ 12)
  ∧ (1 ≤ twoDigits s 8 ∧ twoDigits s 8 ≤ 31)
  ∧ twoDigits s 11 ≤ 23 ∧ twoDigits s 14 ≤ 59 ∧ twoDigits s 17 ≤ 59

instance (s : List Nat) : Decidable (IsISO8601InRange s) := by
  unfold IsISO8601InRange
  infer_instance

/-- The year that a record stands for: the decoded year field is the offset
from 2000. -/
def recordYear (a : DateTime) : Nat :=
  2000 + convertToDecimal a.year

/-- The three-letter weekday abbreviation of an HTTP date, for the weekday
index 0 = Sunday .. 6 = Saturday. -/
def weekdayName : Nat → List Nat
  | 0 => cstr "Sun"
  | 1 => cstr "Mon"
  | 2 => cstr "Tue"
  | 3 => cstr "Wed"
  | 4 => cstr "Thu"
  | 5 => cstr "Fri"
  | _ => cstr "Sat"

/-- The three-letter month abbreviation of an HTTP date, for the month number
1 = January .. 12 = December. -/
def monthName : Nat → List Nat
  | 1 => cstr "Jan"
  | 2 => cstr "Feb"
  | 3 => cstr "Mar"
  | 4 => cstr "Apr"
  | 5 => cstr "May"
  | 6 => cstr "Jun"
  | 7 => cstr "Jul"
  | 8 => cstr "Aug"
  | 9 => cstr "Sep"
  | 10 => cstr "Oct"
  | 11 => cstr "Nov"
  | _ => cstr "Dec"

/-- The two decimal digits of a number below 100, as characters. -/
def digits2 (n : Nat) : List Nat :=
  ['0'.toNat + n / 10, '0'.toNat + n % 10]

/-- The four decimal digits of a number below 10000, as characters. -/
def digits4 (n : Nat) : List Nat :=
  ['0'.toNat + n / 1000, '0'.toNat + n / 100 % 10, '0'.toNat + n / 10 % 10, '0'.toNat + n % 10]

/-- The well-formed HTTP-date text `Www, DD Mon YYYY hh:mm:ss GMT` for a weekday
index, a day, a month number, a four-digit year and a time of day. -/
def httpDate (w d m y hh mm ss : Nat) : List Nat :=
  weekdayName w ++ cstr ", " ++ digits2 d ++ cstr " " ++ monthName m ++ cstr " " ++ digits4 y
    ++ cstr " " ++ digits2 hh ++ cstr ":" ++ digits2 mm ++ cstr ":" ++ digits2 ss ++ cstr " GMT"

/-- The call of `setDateTime` to which `setDateTimeFromISO8601` delegates
(source lines 60-62), with the `bool` it returns: the arguments are the bytes
that `atoi` yields on the six two-character groups. -/
def iso8601Delegate (iso8601 : List Nat) (self : RV3028C7) : Bool × RV3028C7 :=
  setDateTime ((2000 + atoiComponents (charAt iso8601 2) (charAt iso8601 3)) % 65536)
    (atoiComponents (charAt iso8601 5) (charAt iso8601 6))
    (atoiComponents (charAt iso8601 8) (charAt iso8601 9)) SUN
    (atoiComponents (charAt iso8601 11) (charAt iso8601 12))
    (atoiComponents (charAt iso8601 14) (charAt iso8601 15))
    (atoiComponents (charAt iso8601 17) (charAt iso8601 18)) self

/-- The position of the weekday in an HTTP-date text: 6 after the prefix
`Date: `, which is recognised by its first character, and 0 otherwise. -/
def httpStart (str : List Nat) : Nat :=
  if charAt str 0 = 'D'.toNat then 6 else 0

/-- The call of `setDateTime` to which `setDateTimeFromHTTPHeader` delegates
(source lines 176-177), with the `bool` it returns. -/
def httpHeaderDelegate (str : List Nat) (self : RV3028C7) : Bool × RV3028C7 :=
  setDateTime
    ((2000 + atoi [charAt str (httpStart str + 14), charAt str (httpStart str + 15), 0])
      % 65536).toNat
    (httpMonth str (httpStart str + 8))
    (atoiComponents (charAt str (httpStart str + 5)) (charAt str (httpStart str + 6)))
    (httpDayOfWeek str (httpStart str))
    (atoiComponents (charAt str (httpStart str + 17)) (charAt str (httpStart str + 18)))
    (atoiComponents (charAt str (httpStart str + 20)) (charAt str (httpStart str + 21)))
    (atoiComponents (charAt str (httpStart str + 23)) (charAt str (httpStart str + 24))) self

/-- A driver whose chip gives the byte 0xFF for every register, the byte that a
read of the bus yields when no data has arrived. -/
def allOnesDriver : RV3028C7 :=
  { _i2cPort := { regs := fun _ => 0xFF, status := 0 }
    _dateTime := ⟨0, 0, 0, 0, 0, 0, 0⟩ }

/-- A driver whose record holds 2018-01-01, a Sunday, 08:00:00 in BCD. -/
def driver2018 : RV3028C7 :=
  { _i2cPort := { regs := fun _ => 0, status := 0 }
    _dateTime := ⟨0, 0, 8, 0, 1, 1, 0x18⟩ }

/-! ## Auxiliary lemmas -/

theorem range_seven : List.range 7 = [0, 1, 2, 3, 4, 5, 6] := by decide

/-- A seven-byte read from the clock registers replaces the whole destination
by the register contents. -/
theorem readBytes_clock (REG : Nat) (destination : DateTime) (self : RV3028C7) :
    (readBytesFromRegisters REG destination DATETIME_COMPONENTS self).2
      = clockRegisters REG self._i2cPort := by
  simp [readBytesFromRegisters, DATETIME_COMPONENTS, TwoWire.requestFrom, range_seven,
    readLoop, DateTime.set, clockRegisters]

/-- The seven bytes that `synchronize` hands to the bus, in register order. -/
theorem writeLoop_seven (values : DateTime) :
    writeLoop values 7 (7 + 1) 0 [] = [values.second, values.minute, values.hour,
      values.dayOfWeek, values.dayOfMonth, values.month, values.year] := by
  simp [writeLoop, DateTime.get]

/-- A `synchronize` that reports success leaves the record in the clock
registers and does not touch the record. -/
theorem synchronize_ok (REG : Nat) (self : RV3028C7)
    (h : (synchronize REG self).1 = true) :
    clockRegisters REG (synchronize REG self).2._i2cPort = self._dateTime
      ∧ (synchronize REG self).2._dateTime = self._dateTime := by
  have hs : self._i2cPort.status = 0 := by
    simpa [synchronize, writeBytesToRegisters, TwoWire.endTransmission] using h
  simp [synchronize, writeBytesToRegisters, TwoWire.endTransmission, DATETIME_COMPONENTS,
    writeLoop_seven, hs, clockRegisters]

/-- The outcome of `setDateTime` when every check passes. -/
theorem setDateTime_valid (year month dayOfMonth dayOfWeek hour minute second : Nat)
    (self : RV3028C7) (hy : 2000 ≤ year) (hm : 1 ≤ month ∧ month ≤ 12)
    (hd : 1 ≤ dayOfMonth ∧ dayOfMonth ≤ 31) (hw : dayOfWeek ≤ 6) (hh : hour ≤ 23)
    (hmi : minute ≤ 59) (hs : second ≤ 59) :
    setDateTime year month dayOfMonth dayOfWeek hour minute second self
      = (true, { self with _dateTime :=
          { second := convertToBCD second
            minute := convertToBCD minute
            hour := convertToBCD hour
            dayOfWeek := convertToBCD (dayOfWeek % 256)
            dayOfMonth := convertToBCD dayOfMonth
            month := convertToBCD month
            year := convertToBCD ((year - 2000) % 256) } }) := by
  have h1 : ¬ year < 2000 := by omega
  have h2 : ¬ (month < 1 ∨ month > 12) := by omega
  have h3 : ¬ (dayOfMonth < 1 ∨ dayOfMonth > 31) := by omega
  have h4 : ¬ dayOfWeek > 6 := by omega
  have h5 : ¬ hour > 23 := by omega
  have h6 : ¬ minute > 59 := by omega
  have h7 : ¬ second > 59 := by omega
  unfold setDateTime
  simp only [if_neg h1, if_neg h2, if_neg h3, if_neg h4, if_neg h5, if_neg h6, if_neg h7]
  rfl

/-- The BCD codec on the two-digit range, shared by the round-trip results. -/
theorem decimal_of_bcd (d : Nat) (h : d ≤ 99) : convertToDecimal (convertToBCD d) = d := by
  have hall : ∀ n, n < 100 → convertToDecimal (convertToBCD n) = n := by decide
  exact hall d (by omega)

/-- The call `atoi` on a buffer of two decimal digits gives the number they
form, which fits a byte. -/
theorem atoiComponents_digits (a b : Nat) (ha : isdigit a = true) (hb : isdigit b = true) :
    atoiComponents a b = (a - 48) * 10 + (b - 48) := by
  have hall : ∀ x, x < 10 → ∀ y, y < 10 →
      atoiComponents (48 + x) (48 + y) = (48 + x - 48) * 10 + (48 + y - 48) := by decide
  simp only [isdigit, Char.reduceToNat, decide_eq_true_eq] at ha hb
  have h := hall (a - 48) (by omega) (b - 48) (by omega)
  have ea : 48 + (a - 48) = a := by omega
  have eb : 48 + (b - 48) = b := by omega
  rw [ea, eb] at h
  exact h

/-- The number formed by two decimal digits is at most 99. -/
theorem twoDigits_le (str : List Nat) (i : Nat) (h0 : isdigit (charAt str i) = true)
    (h1 : isdigit (charAt str (i + 1)) = true) : twoDigits str i ≤ 99 := by
  simp only [isdigit, Char.reduceToNat, decide_eq_true_eq] at h0 h1
  simp only [twoDigits, Char.reduceToNat]
  omega

/-- On two decimal digits, the byte that `atoi` yields is the number they form. -/
theorem atoiComponents_twoDigits (str : List Nat) (i : Nat)
    (h0 : isdigit (charAt str i) = true) (h1 : isdigit (charAt str (i + 1)) = true) :
    atoiComponents (charAt str i) (charAt str (i + 1)) = twoDigits str i := by
  rw [atoiComponents_digits _ _ h0 h1]
  simp [twoDigits]

/-- On a text of the ISO 8601 shape the parser calls `setDateTime` with the
numbers formed by the six two-digit groups. -/
theorem setDateTimeFromISO8601_shape (s : List Nat) (self : RV3028C7)
    (hs : IsISO8601Shape s) :
    setDateTimeFromISO8601 s self
      = (setDateTime (2000 + twoDigits s 2) (twoDigits s 5) (twoDigits s 8)
          0 (twoDigits s 11) (twoDigits s 14) (twoDigits s 17) self).2 := by
  obtain ⟨_, hd, _⟩ := hs
  have e0 := atoiComponents_twoDigits s 2 (hd 2 (by simp)) (hd 3 (by simp))
  have e1 := atoiComponents_twoDigits s 5 (hd 5 (by simp)) (hd 6 (by simp))
  have e2 := atoiComponents_twoDigits s 8 (hd 8 (by simp)) (hd 9 (by simp))
  have e3 := atoiComponents_twoDigits s 11 (hd 11 (by simp)) (hd 12 (by simp))
  have e4 := atoiComponents_twoDigits s 14 (hd 14 (by simp)) (hd 15 (by simp))
  have e5 := atoiComponents_twoDigits s 17 (hd 17 (by simp)) (hd 18 (by simp))
  have hy := twoDigits_le s 2 (hd 2 (by simp)) (hd 3 (by simp))
  have hmod : (2000 + twoDigits s 2) % 65536 = 2000 + twoDigits s 2 := by omega
  simp [setDateTimeFromISO8601, iso8601Loop, e0, e1, e2, e3, e4, e5, hmod, SUN]

/-- Encoding the number formed by two decimal digits, decoding it and printing
it with `%02d` gives the two digits back. -/
theorem sprintf02d_twoDigits (str : List Nat) (i : Nat)
    (h0 : isdigit (charAt str i) = true) (h1 : isdigit (charAt str (i + 1)) = true) :
    sprintf02d (convertToDecimal (convertToBCD (twoDigits str i)))
      = [charAt str i, charAt str (i + 1)] := by
  have hall : ∀ x, x < 10 → ∀ y, y < 10 →
      sprintf02d (convertToDecimal (convertToBCD ((48 + x - 48) * 10 + (48 + y - 48))))
        = [48 + x, 48 + y] := by decide
  simp only [isdigit, Char.reduceToNat, decide_eq_true_eq] at h0 h1
  have h := hall (charAt str i - 48) (by omega) (charAt str (i + 1) - 48) (by omega)
  have ea : 48 + (charAt str i - 48) = charAt str i := by omega
  have eb : 48 + (charAt str (i + 1) - 48) = charAt str (i + 1) := by omega
  rw [ea, eb] at h
  simpa [twoDigits] using h

/-- A text of nineteen characters is the list of its characters at the
positions 0 to 18. -/
theorem eq_of_length_nineteen (s : List Nat) (h : s.length = 19) :
    s = [charAt s 0, charAt s 1, charAt s 2, charAt s 3, charAt s 4, charAt s 5, charAt s 6,
      charAt s 7, charAt s 8, charAt s 9, charAt s 10, charAt s 11, charAt s 12, charAt s 13,
      charAt s 14, charAt s 15, charAt s 16, charAt s 17, charAt s 18] := by
  apply List.ext_getElem
  · simp [h]
  · intro n h1 h2
    have hn : n < 19 := by omega
    interval_cases n <;> simp [charAt, List.getD_eq_getElem?_getD, List.getElem?_eq_getElem, h1]

/-- The byte that `atoi` yields on the two digits of a number below 100. -/
theorem atoiComponents_digits2 (n : Nat) (h : n ≤ 99) :
    atoiComponents (48 + n / 10) (48 + n % 10) = n := by
  rw [atoiComponents_digits _ _ (by simp [isdigit]; omega) (by simp [isdigit]; omega)]
  omega

/-- The year that the HTTP-date parser computes from the last two digits of a
year: `uint16_t year = 2000 + atoi(components)`. -/
theorem httpYear_digits (y : Nat) :
    ((2000 + atoi [48 + y / 10 % 10, 48 + y % 10, 0]) % 65536).toNat = 2000 + y % 100 := by
  have hall : ∀ a, a < 10 → ∀ b, b < 10 →
      ((2000 + atoi [48 + a, 48 + b, 0]) % 65536).toNat = 2000 + (a * 10 + b) := by decide
  rw [hall (y / 10 % 10) (by omega) (y % 10) (by omega)]
  omega

/-- Each weekday abbreviation is three characters, does not begin with `D`,
and is read back as its weekday index by the cascade. -/
theorem weekdayName_read (w : Nat) (hw : w ≤ 6) :
    ∃ a b c, weekdayName w = [a, b, c] ∧ a ≠ 68
      ∧ ∀ str counter, charAt str counter = a → charAt str (counter + 1) = b →
          httpDayOfWeek str counter = w := by
  interval_cases w
  all_goals
    refine ⟨_, _, _, rfl, by decide, ?_⟩
    intro str counter h0 h1
    simp [httpDayOfWeek, h0, h1]

/-- Each month abbreviation is three characters and is read back as its month
number by the cascade. -/
theorem monthName_read (m : Nat) (hm : 1 ≤ m ∧ m ≤ 12) :
    ∃ a b c, monthName m = [a, b, c]
      ∧ ∀ str counter, charAt str counter = a → charAt str (counter + 1) = b →
          charAt str (counter + 2) = c → httpMonth str counter = m := by
  obtain ⟨h1, h2⟩ := hm
  interval_cases m
  all_goals
    refine ⟨_, _, _, rfl, ?_⟩
    intro str counter h0 h1 h2
    simp [httpMonth, h0, h1, h2]

/-- The HTTP-date parser on a text given character by character, with decimal
digits at the digit positions of the day and of the time. -/
theorem setDateTimeFromHTTPHeader_chars (w m d1 d0 y3 y2 y1 y0 h1 h0 m1 m0 s1 s0 : Nat)
    (self : RV3028C7) (hw : w ≤ 6) (hm : 1 ≤ m ∧ m ≤ 12)
    (hd1 : isdigit d1 = true) (hd0 : isdigit d0 = true)
    (hh1 : isdigit h1 = true) (hh0 : isdigit h0 = true)
    (hm1 : isdigit m1 = true) (hm0 : isdigit m0 = true)
    (hs1 : isdigit s1 = true) (hs0 : isdigit s0 = true) :
    setDateTimeFromHTTPHeader
        (weekdayName w ++ cstr ", " ++ [d1, d0] ++ cstr " " ++ monthName m ++ cstr " "
          ++ [y3, y2, y1, y0] ++ cstr " " ++ [h1, h0] ++ cstr ":" ++ [m1, m0] ++ cstr ":"
          ++ [s1, s0] ++ cstr " GMT") self
      = (setDateTime ((2000 + atoi [y1, y0, 0]) % 65536).toNat m ((d1 - 48) * 10 + (d0 - 48)) w
          ((h1 - 48) * 10 + (h0 - 48)) ((m1 - 48) * 10 + (m0 - 48))
          ((s1 - 48) * 10 + (s0 - 48)) self).2 := by
  have e1 := atoiComponents_digits d1 d0 hd1 hd0
  have e2 := atoiComponents_digits h1 h0 hh1 hh0
  have e3 := atoiComponents_digits m1 m0 hm1 hm0
  have e4 := atoiComponents_digits s1 s0 hs1 hs0
  obtain ⟨a, b, c, hwn, hD, hdow⟩ := weekdayName_read w hw
  obtain ⟨p, q, r, hmn, hmonth⟩ := monthName_read m hm
  rw [hwn, hmn]
  have t0 := hdow ([a, b, c] ++ cstr ", " ++ [d1, d0] ++ cstr " " ++ [p, q, r] ++ cstr " "
          ++ [y3, y2, y1, y0] ++ cstr " " ++ [h1, h0] ++ cstr ":" ++ [m1, m0] ++ cstr ":"
          ++ [s1, s0] ++ cstr " GMT") 0 (by simp [charAt]) (by simp [charAt])
  have t1 := hmonth ([a, b, c] ++ cstr ", " ++ [d1, d0] ++ cstr " " ++ [p, q, r] ++ cstr " "
          ++ [y3, y2, y1, y0] ++ cstr " " ++ [h1, h0] ++ cstr ":" ++ [m1, m0] ++ cstr ":"
          ++ [s1, s0] ++ cstr " GMT") 8 (by simp [charAt, cstr]) (by simp [charAt, cstr])
          (by simp [charAt, cstr])
  have hD2 : charAt ([a, b, c] ++ cstr ", " ++ [d1, d0] ++ cstr " " ++ [p, q, r] ++ cstr " "
          ++ [y3, y2, y1, y0] ++ cstr " " ++ [h1, h0] ++ cstr ":" ++ [m1, m0] ++ cstr ":"
          ++ [s1, s0] ++ cstr " GMT") 0 ≠ 68 := by simpa [charAt] using hD
  unfold setDateTimeFromHTTPHeader
  simp only [Char.reduceToNat, if_neg hD2, Nat.zero_add, Nat.reduceAdd, t0, t1]
  simp [cstr, charAt, httpTimeLoop, e1, e2, e3, e4]

/-- On a well-formed HTTP-date text without prefix the parser calls
`setDateTime` with 2000 plus the last two digits of the year, the month number,
the day, the weekday index and the time of day. -/
theorem setDateTimeFromHTTPHeader_httpDate (w d m y hh mm ss : Nat) (self : RV3028C7)
    (hw : w ≤ 6) (hm : 1 ≤ m ∧ m ≤ 12) (hd : d ≤ 99) (hhh : hh ≤ 99) (hmm : mm ≤ 99)
    (hss : ss ≤ 99) :
    setDateTimeFromHTTPHeader (httpDate w d m y hh mm ss) self
      = (setDateTime (2000 + y % 100) m d w hh mm ss self).2 := by
  have hdig : ∀ n : Nat, n < 10 → isdigit (48 + n) = true := by decide
  have key := setDateTimeFromHTTPHeader_chars w m (48 + d / 10) (48 + d % 10)
    (48 + y / 1000) (48 + y / 100 % 10) (48 + y / 10 % 10) (48 + y % 10)
    (48 + hh / 10) (48 + hh % 10) (48 + mm / 10) (48 + mm % 10) (48 + ss / 10) (48 + ss % 10)
    self hw hm (hdig _ (by omega)) (hdig _ (by omega)) (hdig _ (by omega)) (hdig _ (by omega))
    (hdig _ (by omega)) (hdig _ (by omega)) (hdig _ (by omega)) (hdig _ (by omega))
  have a1 : (48 + d / 10 - 48) * 10 + (48 + d % 10 - 48) = d := by omega
  have a2 : (48 + hh / 10 - 48) * 10 + (48 + hh % 10 - 48) = hh := by omega
  have a3 : (48 + mm / 10 - 48) * 10 + (48 + mm % 10 - 48) = mm := by omega
  have a4 : (48 + ss / 10 - 48) * 10 + (48 + ss % 10 - 48) = ss := by omega
  rw [httpYear_digits, a1, a2, a3, a4] at key
  simpa only [httpDate, digits2, digits4, Char.reduceToNat] using key

/-- The character at position `k + 6` of a text with the prefix `Date: ` is
the character at position `k` of the text without it. -/
theorem charAt_date_prefix (s : List Nat) (k : Nat) :
    charAt (cstr "Date: " ++ s) (k + 6) = charAt s k := by
  simp [charAt, cstr]

/-- The call `setDateTime` leaves the bus as it is. -/
theorem setDateTime_i2cPort (year month dayOfMonth dayOfWeek hour minute second : Nat)
    (self : RV3028C7) :
    (setDateTime year month dayOfMonth dayOfWeek hour minute second self).2._i2cPort
      = self._i2cPort := by
  unfold setDateTime
  split_ifs <;> rfl

/-- The clock register of a component is the field of that component in the
record of register contents. -/
theorem regs_eq_get (REG : Nat) (bus : TwoWire) (c : DateTimeComponent_t) :
    bus.regs (REG + c.toNat) = (clockRegisters REG bus).get c.toNat := by
  cases c <;> rfl

/-- Reading a field that was just written gives the written value. -/
theorem get_set_same (a : DateTime) (c : DateTimeComponent_t) (v : Nat) :
    (a.set c.toNat v).get c.toNat = v := by
  cases c <;> rfl

/-- Writing a field leaves the other fields as they were. -/
theorem get_set_other (a : DateTime) (c c' : DateTimeComponent_t) (v : Nat) (h : c' ≠ c) :
    (a.set c.toNat v).get c'.toNat = a.get c'.toNat := by
  cases c <;> cases c' <;> first | rfl | exact absurd rfl h

/-- The record after `setDateTimeComponent`: the clock registers with the
selected field replaced. -/
theorem setDateTimeComponent_dateTime (REG : Nat) (c : DateTimeComponent_t) (v : Nat)
    (self : RV3028C7) :
    (setDateTimeComponent REG c v self)._dateTime
      = (clockRegisters REG self._i2cPort).set c.toNat (convertToBCD v) := by
  simp only [setDateTimeComponent, readBytes_clock]

/-- A call of `setDateTime` that returns true has passed every check. -/
theorem setDateTime_true_valid (year month dayOfMonth dayOfWeek hour minute second : Nat)
    (self : RV3028C7)
    (h : (setDateTime year month dayOfMonth dayOfWeek hour minute second self).1 = true) :
    2000 ≤ year ∧ (1 ≤ month ∧ month ≤ 12) ∧ (1 ≤ dayOfMonth ∧ dayOfMonth ≤ 31)
      ∧ dayOfWeek ≤ 6 ∧ hour ≤ 23 ∧ minute ≤ 59 ∧ second ≤ 59 := by
  unfold setDateTime at h
  by_cases h1 : year < 2000
  · simp [h1] at h
  by_cases h2 : month < 1 ∨ month > 12
  · simp only [if_neg h1, if_pos h2] at h; cases h
  by_cases h3 : dayOfMonth < 1 ∨ dayOfMonth > 31
  · simp only [if_neg h1, if_neg h2, if_pos h3] at h; cases h
  by_cases h4 : dayOfWeek > 6
  · simp only [if_neg h1, if_neg h2, if_neg h3, if_pos h4] at h; cases h
  by_cases h5 : hour > 23
  · simp only [if_neg h1, if_neg h2, if_neg h3, if_neg h4, if_pos h5] at h; cases h
  by_cases h6 : minute > 59
  · simp only [if_neg h1, if_neg h2, if_neg h3, if_neg h4, if_neg h5, if_pos h6] at h; cases h
  by_cases h7 : second > 59
  · simp only [if_neg h1, if_neg h2, if_neg h3, if_neg h4, if_neg h5, if_neg h6, if_pos h7] at h
    cases h
  · omega

set_option maxRecDepth 20000 in
/-- Decoding a byte with two decimal nibbles and encoding the result gives the
byte back; the decoded value is at most 99. -/
theorem bcd_of_decimal (b : Nat) (hb : b < 256) (hhi : b / 16 ≤ 9) (hlo : b % 16 ≤ 9) :
    convertToBCD (convertToDecimal b) = b ∧ convertToDecimal b ≤ 99 := by
  have hall : ∀ x, x < 256 → x / 16 ≤ 9 → x % 16 ≤ 9 →
      convertToBCD (convertToDecimal x) = x ∧ convertToDecimal x ≤ 99 := by decide
  exact hall b hb hhi hlo

/-- The nibbles of the BCD byte of a number up to 99 are its tens and units. -/
theorem bcd_nibbles (d : Nat) (hd : d ≤ 99) :
    convertToBCD d < 256 ∧ convertToBCD d / 16 = d / 10 ∧ convertToBCD d % 16 = d % 10
      ∧ convertToBCD d / 16 ≤ 9 ∧ convertToBCD d % 16 ≤ 9 := by
  have hall : ∀ x, x < 100 → convertToBCD x < 256 ∧ convertToBCD x / 16 = x / 10
      ∧ convertToBCD x % 16 = x % 10 ∧ convertToBCD x / 16 ≤ 9 ∧ convertToBCD x % 16 ≤ 9 := by
    decide
  exact hall d (by omega)

/-- The parser reads a text with the prefix `Date: ` as it reads the text
without it, when that text does not itself begin with `D`. -/
theorem httpHeader_skips_date_tag (s : List Nat) (self : RV3028C7)
    (h : charAt s 0 ≠ 'D'.toNat) :
    setDateTimeFromHTTPHeader (cstr "Date: " ++ s) self = setDateTimeFromHTTPHeader s self := by
  have hD : charAt (cstr "Date: " ++ s) 0 = 'D'.toNat := by simp [charAt, cstr]
  have p := charAt_date_prefix s
  unfold setDateTimeFromHTTPHeader
  simp only [if_pos hD, if_neg h, httpDayOfWeek, httpMonth, httpTimeLoop, Nat.reduceAdd,
    Nat.zero_add, Nat.reduceLT, if_true, if_false, p 0, p 1, p 5, p 6, p 8, p 9, p 10, p 14,
    p 15, p 17, p 18, p 20, p 21, p 23, p 24]

/-- A well-formed HTTP-date text begins with a weekday abbreviation, so not
with `D`. -/
theorem charAt_httpDate_zero (w d m y hh mm ss : Nat) (hw : w ≤ 6) :
    charAt (httpDate w d m y hh mm ss) 0 ≠ 'D'.toNat := by
  obtain ⟨a, b, c, hwn, hD, -⟩ := weekdayName_read w hw
  simpa [httpDate, hwn, charAt] using hD

/-- The state that `setDateTimeFromISO8601` leaves is the state that the
delegated call of `setDateTime` leaves. -/
theorem setDateTimeFromISO8601_delegate (s : List Nat) (self : RV3028C7) :
    setDateTimeFromISO8601 s self = (iso8601Delegate s self).2 := by
  simp [setDateTimeFromISO8601, iso8601Loop, iso8601Delegate]

/-- The state that `setDateTimeFromHTTPHeader` leaves is the state that the
delegated call of `setDateTime` leaves. -/
theorem setDateTimeFromHTTPHeader_delegate (s : List Nat) (self : RV3028C7) :
    setDateTimeFromHTTPHeader s self = (httpHeaderDelegate s self).2 := by
  simp [setDateTimeFromHTTPHeader, httpTimeLoop, httpHeaderDelegate, httpStart, Nat.add_assoc]

/-- The weekday that the cascade computes is an index in [0,6]. -/
theorem httpDayOfWeek_le (str : List Nat) (counter : Nat) : httpDayOfWeek str counter ≤ 6 := by
  unfold httpDayOfWeek
  split_ifs <;> omega

/-- The month that the cascade computes is a number in [1,12]. -/
theorem httpMonth_range (str : List Nat) (counter : Nat) :
    1 ≤ httpMonth str counter ∧ httpMonth str counter ≤ 12 := by
  unfold httpMonth
  split_ifs <;> omega

/-- A call of `setDateTime` with a month in [1,12] and a weekday in [0,6] that
returns false has failed the check of the year, the day, the hour, the minute
or the second. -/
theorem setDateTime_false_other (year month dayOfMonth dayOfWeek hour minute second : Nat)
    (self : RV3028C7) (hm : 1 ≤ month ∧ month ≤ 12) (hw : dayOfWeek ≤ 6)
    (h : (setDateTime year month dayOfMonth dayOfWeek hour minute second self).1 = false) :
    year < 2000 ∨ (dayOfMonth < 1 ∨ dayOfMonth > 31) ∨ hour > 23 ∨ minute > 59
      ∨ second > 59 := by
  by_contra hc
  rw [setDateTime_valid year month dayOfMonth dayOfWeek hour minute second self
    (by omega) hm (by omega) hw (by omega) (by omega) (by omega)] at h
  cases h

/-- Two driver states with the same bus and the same record are equal. -/
theorem state_eq (a b : RV3028C7) (h1 : a._i2cPort = b._i2cPort)
    (h2 : a._dateTime = b._dateTime) : a = b := by
  cases a
  cases b
  simp_all

/-- The ISO 8601 parser leaves the bus as it is. -/
theorem setDateTimeFromISO8601_i2cPort (s : List Nat) (self : RV3028C7) :
    (setDateTimeFromISO8601 s self)._i2cPort = self._i2cPort := by
  rw [setDateTimeFromISO8601_delegate, iso8601Delegate, setDateTime_i2cPort]

/-- The HTTP-date parser leaves the bus as it is. -/
theorem setDateTimeFromHTTPHeader_i2cPort (s : List Nat) (self : RV3028C7) :
    (setDateTimeFromHTTPHeader s self)._i2cPort = self._i2cPort := by
  rw [setDateTimeFromHTTPHeader_delegate, httpHeaderDelegate, setDateTime_i2cPort]

set_option maxRecDepth 20000 in
/-- A decoded byte is printed by `%02d` with at most three characters, and with
exactly two when it is at most 99. -/
theorem sprintf02d_decoded_length (b : Nat) (hb : b < 256) :
    (sprintf02d (convertToDecimal b)).length ≤ 3
      ∧ (convertToDecimal b ≤ 99 → (sprintf02d (convertToDecimal b)).length = 2) := by
  have hall : ∀ x, x < 256 → (sprintf02d (convertToDecimal x)).length ≤ 3
      ∧ (convertToDecimal x ≤ 99 → (sprintf02d (convertToDecimal x)).length = 2) := by decide
  exact hall b hb

/-- The text of `getCurrentDateTime` over register bytes has at most 25
characters, and exactly 19 when each of the six printed bytes decodes to at
most 99. -/
theorem getCurrentDateTime_length (REG : Nat) (self : RV3028C7)
    (hb : ∀ i, i < 7 → self._i2cPort.regs (REG + i) < 256) :
    ((getCurrentDateTime REG self).1).length ≤ 25
    ∧ ((convertToDecimal (self._i2cPort.regs (REG + 6)) ≤ 99
        ∧ convertToDecimal (self._i2cPort.regs (REG + 5)) ≤ 99
        ∧ convertToDecimal (self._i2cPort.regs (REG + 4)) ≤ 99
        ∧ convertToDecimal (self._i2cPort.regs (REG + 2)) ≤ 99
        ∧ convertToDecimal (self._i2cPort.regs (REG + 1)) ≤ 99
        ∧ convertToDecimal (self._i2cPort.regs (REG + 0)) ≤ 99) →
      ((getCurrentDateTime REG self).1).length = 19) := by
  have l6 := sprintf02d_decoded_length _ (hb 6 (by omega))
  have l5 := sprintf02d_decoded_length _ (hb 5 (by omega))
  have l4 := sprintf02d_decoded_length _ (hb 4 (by omega))
  have l2 := sprintf02d_decoded_length _ (hb 2 (by omega))
  have l1 := sprintf02d_decoded_length _ (hb 1 (by omega))
  have l0 := sprintf02d_decoded_length _ (hb 0 (by omega))
  simp only [getCurrentDateTime, readBytes_clock, clockRegisters, DateTime.get,
    DateTimeComponent_t.toNat, List.length_append, cstr]
  constructor
  · simp only [String.toList, List.map, List.length_cons, List.length_nil]
    omega
  · rintro ⟨h6, h5, h4, h2, h1, h0⟩
    simp only [String.toList, List.map, List.length_cons, List.length_nil]
    have := l6.2 h6
    have := l5.2 h5
    have := l4.2 h4
    have := l2.2 h2
    have := l1.2 h1
    have := l0.2 h0
    omega

/-! ## Main results -/

/-- C1: for every field tuple with year in [2000,2099], month in [1,12],
dayOfMonth in [1,31], dayOfWeek in [0,6], hour in [0,23], minute in [0,59] and
second in [0,59], `setDateTime` returns true, and after a `synchronize` that
reports success a seven-byte read of the clock registers back into the record
decodes, field by field with `convertToDecimal`, to second, minute, hour,
dayOfWeek, dayOfMonth, month and year - 2000. -/
theorem setDateTime_synchronize_readback (REG_CLOCK_SECONDS : Nat)
    (year month dayOfMonth dayOfWeek hour minute second : Nat) (self : RV3028C7)
    (hy : 2000 ≤ year ∧ year ≤ 2099) (hm : 1 ≤ month ∧ month ≤ 12)
    (hd : 1 ≤ dayOfMonth ∧ dayOfMonth ≤ 31) (hw : dayOfWeek ≤ 6) (hh : hour ≤ 23)
    (hmi : minute ≤ 59) (hs : second ≤ 59)
    (hsync : (synchronize REG_CLOCK_SECONDS
      (setDateTime year month dayOfMonth dayOfWeek hour minute second self).2).1 = true) :
    (setDateTime year month dayOfMonth dayOfWeek hour minute second self).1 = true
    ∧ decodeRecord (readBytesFromRegisters REG_CLOCK_SECONDS
        (synchronize REG_CLOCK_SECONDS
          (setDateTime year month dayOfMonth dayOfWeek hour minute second self).2).2._dateTime
        DATETIME_COMPONENTS
        (synchronize REG_CLOCK_SECONDS
          (setDateTime year month dayOfMonth dayOfWeek hour minute second self).2).2).2
      = { second := second, minute := minute, hour := hour, dayOfWeek := dayOfWeek,
          dayOfMonth := dayOfMonth, month := month, year := year - 2000 } := by
  have hv := setDateTime_valid year month dayOfMonth dayOfWeek hour minute second self
    hy.1 hm hd hw hh hmi hs
  refine ⟨by rw [hv], ?_⟩
  rw [readBytes_clock, (synchronize_ok REG_CLOCK_SECONDS _ hsync).1, hv]
  have e1 : dayOfWeek % 256 = dayOfWeek := by omega
  have e2 : (year - 2000) % 256 = year - 2000 := by omega
  simp only [decodeRecord, e1, e2]
  rw [decimal_of_bcd second (by omega), decimal_of_bcd minute (by omega),
    decimal_of_bcd hour (by omega), decimal_of_bcd dayOfWeek (by omega),
    decimal_of_bcd dayOfMonth (by omega), decimal_of_bcd month (by omega),
    decimal_of_bcd (year - 2000) (by omega)]

/-- Witness of C1 at 2024-02-29, a Thursday, 23:59:58. -/
theorem setDateTime_synchronize_readback_witness :
    (setDateTime 2024 2 29 4 23 59 58 exampleDriver).1 = true
    ∧ decodeRecord (readBytesFromRegisters 0
        (synchronize 0 (setDateTime 2024 2 29 4 23 59 58 exampleDriver).2).2._dateTime
        DATETIME_COMPONENTS
        (synchronize 0 (setDateTime 2024 2 29 4 23 59 58 exampleDriver).2).2).2
      = { second := 58, minute := 59, hour := 23, dayOfWeek := 4,
          dayOfMonth := 29, month := 2, year := 2024 - 2000 } :=
  setDateTime_synchronize_readback 0 2024 2 29 4 23 59 58 exampleDriver
    (by decide) (by decide) (by decide) (by decide) (by decide) (by decide) (by decide)
    (by decide)

/-- C2: for all arguments, `setDateTime` returns false if and only if
year < 2000, or month < 1 or month > 12, or dayOfMonth < 1 or dayOfMonth > 31,
or dayOfWeek > 6, or hour > 23, or minute > 59, or second > 59; in particular
it returns false for month 13, for hour 24, for second 60 and for year 1999
when the other fields are valid. -/
theorem setDateTime_false_iff (year month dayOfMonth dayOfWeek hour minute second : Nat)
    (self : RV3028C7) :
    ((setDateTime year month dayOfMonth dayOfWeek hour minute second self).1 = false
      ↔ (year < 2000 ∨ (month < 1 ∨ month > 12) ∨ (dayOfMonth < 1 ∨ dayOfMonth > 31)
          ∨ dayOfWeek > 6 ∨ hour > 23 ∨ minute > 59 ∨ second > 59))
    ∧ (setDateTime 2018 13 1 0 8 0 0 self).1 = false
    ∧ (setDateTime 2018 1 1 0 24 0 0 self).1 = false
    ∧ (setDateTime 2018 1 1 0 8 0 60 self).1 = false
    ∧ (setDateTime 1999 1 1 0 8 0 0 self).1 = false := by
  refine ⟨?_, rfl, rfl, rfl, rfl⟩
  unfold setDateTime
  by_cases h1 : year < 2000
  · simp [h1]
  by_cases h2 : month < 1 ∨ month > 12
  · simp only [if_neg h1, if_pos h2]; tauto
  by_cases h3 : dayOfMonth < 1 ∨ dayOfMonth > 31
  · simp only [if_neg h1, if_neg h2, if_pos h3]; tauto
  by_cases h4 : dayOfWeek > 6
  · simp only [if_neg h1, if_neg h2, if_neg h3, if_pos h4]; tauto
  by_cases h5 : hour > 23
  · simp only [if_neg h1, if_neg h2, if_neg h3, if_neg h4, if_pos h5]; tauto
  by_cases h6 : minute > 59
  · simp only [if_neg h1, if_neg h2, if_neg h3, if_neg h4, if_neg h5, if_pos h6]; tauto
  by_cases h7 : second > 59
  · simp only [if_neg h1, if_neg h2, if_neg h3, if_neg h4, if_neg h5, if_neg h6, if_pos h7]
    tauto
  · simp only [if_neg h1, if_neg h2, if_neg h3, if_neg h4, if_neg h5, if_neg h6, if_neg h7]
    constructor
    · intro h; cases h
    · tauto

/-- C3: when `setDateTime` fails, the record holds exactly the writes made
before the first violated check, in the order year, month, dayOfMonth,
dayOfWeek, hour, minute, second: each field checked before the first violated
one holds the `convertToBCD` value written for it (for the year, of year - 2000
as a byte), and the first violated field and every later one are as they were
before the call. A call failing on the year leaves the whole record as it was,
and a call failing only on the second changes every field but the seconds. -/
theorem setDateTime_failure_prefix
    (year month dayOfMonth dayOfWeek hour minute second : Nat) (self : RV3028C7)
    (hfail : (setDateTime year month dayOfMonth dayOfWeek hour minute second self).1 = false) :
    (year < 2000
      ∧ (setDateTime year month dayOfMonth dayOfWeek hour minute second self).2._dateTime
        = self._dateTime)
    ∨ (2000 ≤ year ∧ (month < 1 ∨ month > 12)
      ∧ (setDateTime year month dayOfMonth dayOfWeek hour minute second self).2._dateTime
        = { self._dateTime with
            year := convertToBCD ((year - 2000) % 256) })
    ∨ (2000 ≤ year ∧ (1 ≤ month ∧ month ≤ 12) ∧ (dayOfMonth < 1 ∨ dayOfMonth > 31)
      ∧ (setDateTime year month dayOfMonth dayOfWeek hour minute second self).2._dateTime
        = { self._dateTime with
            year := convertToBCD ((year - 2000) % 256)
            month := convertToBCD month })
    ∨ (2000 ≤ year ∧ (1 ≤ month ∧ month ≤ 12) ∧ (1 ≤ dayOfMonth ∧ dayOfMonth ≤ 31)
      ∧ dayOfWeek > 6
      ∧ (setDateTime year month dayOfMonth dayOfWeek hour minute second self).2._dateTime
        = { self._dateTime with
            year := convertToBCD ((year - 2000) % 256)
            month := convertToBCD month
            dayOfMonth := convertToBCD dayOfMonth })
    ∨ (2000 ≤ year ∧ (1 ≤ month ∧ month ≤ 12) ∧ (1 ≤ dayOfMonth ∧ dayOfMonth ≤ 31)
      ∧ dayOfWeek ≤ 6 ∧ hour > 23
      ∧ (setDateTime year month dayOfMonth dayOfWeek hour minute second self).2._dateTime
        = { self._dateTime with
            year := convertToBCD ((year - 2000) % 256)
            month := convertToBCD month
            dayOfMonth := convertToBCD dayOfMonth
            dayOfWeek := convertToBCD (dayOfWeek % 256) })
    ∨ (2000 ≤ year ∧ (1 ≤ month ∧ month ≤ 12) ∧ (1 ≤ dayOfMonth ∧ dayOfMonth ≤ 31)
      ∧ dayOfWeek ≤ 6 ∧ hour ≤ 23 ∧ minute > 59
      ∧ (setDateTime year month dayOfMonth dayOfWeek hour minute second self).2._dateTime
        = { self._dateTime with
            year := convertToBCD ((year - 2000) % 256)
            month := convertToBCD month
            dayOfMonth := convertToBCD dayOfMonth
            dayOfWeek := convertToBCD (dayOfWeek % 256)
            hour := convertToBCD hour })
    ∨ (2000 ≤ year ∧ (1 ≤ month ∧ month ≤ 12) ∧ (1 ≤ dayOfMonth ∧ dayOfMonth ≤ 31)
      ∧ dayOfWeek ≤ 6 ∧ hour ≤ 23 ∧ minute ≤ 59 ∧ second > 59
      ∧ (setDateTime year month dayOfMonth dayOfWeek hour minute second self).2._dateTime
        = { self._dateTime with
            year := convertToBCD ((year - 2000) % 256)
            month := convertToBCD month
            dayOfMonth := convertToBCD dayOfMonth
            dayOfWeek := convertToBCD (dayOfWeek % 256)
            hour := convertToBCD hour
            minute := convertToBCD minute }) := by
  obtain ⟨bus, ⟨a0, a1, a2, a3, a4, a5, a6⟩⟩ := self
  unfold setDateTime at hfail ⊢
  by_cases h1 : year < 2000
  · left; simp only [if_pos h1]; exact ⟨h1, trivial⟩
  right
  by_cases h2 : month < 1 ∨ month > 12
  · left; simp only [if_neg h1, if_pos h2]; exact ⟨by omega, h2, rfl⟩
  right
  by_cases h3 : dayOfMonth < 1 ∨ dayOfMonth > 31
  · left; simp only [if_neg h1, if_neg h2, if_pos h3]; exact ⟨by omega, by omega, h3, rfl⟩
  right
  by_cases h4 : dayOfWeek > 6
  · left; simp only [if_neg h1, if_neg h2, if_neg h3, if_pos h4]
    exact ⟨by omega, by omega, by omega, h4, rfl⟩
  right
  by_cases h5 : hour > 23
  · left; simp only [if_neg h1, if_neg h2, if_neg h3, if_neg h4, if_pos h5]
    exact ⟨by omega, by omega, by omega, by omega, h5, rfl⟩
  right
  by_cases h6 : minute > 59
  · left; simp only [if_neg h1, if_neg h2, if_neg h3, if_neg h4, if_neg h5, if_pos h6]
    exact ⟨by omega, by omega, by omega, by omega, by omega, h6, rfl⟩
  right
  by_cases h7 : second > 59
  · simp only [if_neg h1, if_neg h2, if_neg h3, if_neg h4, if_neg h5, if_neg h6, if_pos h7]
    exact ⟨by omega, by omega, by omega, by omega, by omega, by omega, h7, rfl⟩
  · simp only [if_neg h1, if_neg h2, if_neg h3, if_neg h4, if_neg h5, if_neg h6, if_neg h7]
      at hfail
    cases hfail

/-- Witness of C3: a call that fails only on the second (60) writes every field
but the seconds. -/
theorem setDateTime_failure_prefix_witness :
    (setDateTime 2024 2 29 4 23 59 60 exampleDriver).1 = false
    ∧ (setDateTime 2024 2 29 4 23 59 60 exampleDriver).2._dateTime
      = { second := 0, minute := 0x59, hour := 0x23, dayOfWeek := 4, dayOfMonth := 0x29,
          month := 2, year := 0x24 } := by
  refine ⟨rfl, ?_⟩
  rcases setDateTime_failure_prefix 2024 2 29 4 23 59 60 exampleDriver rfl
    with h | h | h | h | h | h | h
  · exact absurd h.1 (by decide)
  · exact absurd h.2.1 (by decide)
  · exact absurd h.2.2.1 (by decide)
  · exact absurd h.2.2.2.1 (by decide)
  · exact absurd h.2.2.2.2.1 (by decide)
  · exact absurd h.2.2.2.2.2.1 (by decide)
  · exact h.2.2.2.2.2.2.2

/-- C4: BCD round trip, in 8-bit unsigned arithmetic: for every decimal d with
0 <= d <= 99, `convertToDecimal (convertToBCD d) = d`. -/
theorem convertToDecimal_convertToBCD (d : Nat) (h : d ≤ 99) :
    convertToDecimal (convertToBCD d) = d :=
  decimal_of_bcd d h

/-- Witness of C4 at d = 59, whose BCD byte is 0x59. -/
theorem convertToDecimal_convertToBCD_witness :
    59 ≤ 99 ∧ convertToDecimal (convertToBCD 59) = 59 :=
  ⟨by decide, convertToDecimal_convertToBCD 59 (by decide)⟩

/-- C5: for every text of the shape `YYYY-MM-DDTHH:MM:SS`,
`setDateTimeFromISO8601` has exactly the effect of `setDateTime` called with
2000 plus the number formed by the third and fourth characters, the month, the
day, Sunday (0), the hour, the minute and the second; and from any state the
text "2018-01-01T08:00:00" leaves a record that decodes to year offset 18
(2018), month 1, day 1, weekday Sunday, hour 8, minute 0, second 0. -/
theorem setDateTimeFromISO8601_eq_setDateTime (iso8601 : List Nat) (self : RV3028C7)
    (hshape : IsISO8601Shape iso8601) :
    setDateTimeFromISO8601 iso8601 self
      = (setDateTime (2000 + twoDigits iso8601 2) (twoDigits iso8601 5) (twoDigits iso8601 8)
          0 (twoDigits iso8601 11) (twoDigits iso8601 14) (twoDigits iso8601 17) self).2
    ∧ decodeRecord (setDateTimeFromISO8601 (cstr "2018-01-01T08:00:00") self)._dateTime
      = { second := 0, minute := 0, hour := 8, dayOfWeek := 0, dayOfMonth := 1, month := 1,
          year := 18 } := by
  refine ⟨setDateTimeFromISO8601_shape iso8601 self hshape, ?_⟩
  rw [setDateTimeFromISO8601_shape _ self (by decide), setDateTime_valid _ _ _ _ _ _ _ self (by decide) (by decide)
    (by decide) (by decide) (by decide) (by decide) (by decide)]
  simp [decodeRecord, twoDigits, cstr, charAt, convertToBCD, convertToDecimal]

/-- Witness of C5 at the text "2099-12-31T23:59:59". -/
theorem setDateTimeFromISO8601_eq_setDateTime_witness :
    IsISO8601Shape (cstr "2099-12-31T23:59:59")
    ∧ setDateTimeFromISO8601 (cstr "2099-12-31T23:59:59") exampleDriver
      = (setDateTime 2099 12 31 0 23 59 59 exampleDriver).2 :=
  ⟨by decide,
   (setDateTimeFromISO8601_eq_setDateTime (cstr "2099-12-31T23:59:59") exampleDriver
      (by decide)).1⟩

/-- C6: ISO 8601 round trip. For every well-formed text s of the form
`20YY-MM-DDThh:mm:ss` whose fields are in range (month 1-12, day 1-31, hour
0-23, minute 0-59, second 0-59), `setDateTimeFromISO8601 s`, then a
`synchronize` that reports success, then `getCurrentDateTime` returns a text
equal to s character for character. -/
theorem iso8601_round_trip (REG_CLOCK_SECONDS : Nat) (s : List Nat) (self : RV3028C7)
    (hs : IsISO8601InRange s)
    (hsync : (synchronize REG_CLOCK_SECONDS (setDateTimeFromISO8601 s self)).1 = true) :
    (getCurrentDateTime REG_CLOCK_SECONDS
      (synchronize REG_CLOCK_SECONDS (setDateTimeFromISO8601 s self)).2).1 = s := by
  obtain ⟨hshape, c0, c1, hmo, hda, hho, hmi, hse⟩ := hs
  have hshape2 := hshape
  obtain ⟨hlen, hd, c4, c7, c10, c13, c16⟩ := hshape2
  have hy := twoDigits_le s 2 (hd 2 (by simp)) (hd 3 (by simp))
  have hyear : (2000 + twoDigits s 2 - 2000) % 256 = twoDigits s 2 := by omega
  have hset : setDateTimeFromISO8601 s self
      = { self with _dateTime :=
          { second := convertToBCD (twoDigits s 17)
            minute := convertToBCD (twoDigits s 14)
            hour := convertToBCD (twoDigits s 11)
            dayOfWeek := convertToBCD (0 % 256)
            dayOfMonth := convertToBCD (twoDigits s 8)
            month := convertToBCD (twoDigits s 5)
            year := convertToBCD (twoDigits s 2) } } := by
    rw [setDateTimeFromISO8601_shape s self hshape,
      setDateTime_valid _ _ _ _ _ _ _ self (by omega) hmo hda (by omega) hho hmi hse, hyear]
  rw [hset] at hsync ⊢
  obtain ⟨hregs, -⟩ := synchronize_ok REG_CLOCK_SECONDS _ hsync
  have f0 := sprintf02d_twoDigits s 2 (hd 2 (by simp)) (hd 3 (by simp))
  have f1 := sprintf02d_twoDigits s 5 (hd 5 (by simp)) (hd 6 (by simp))
  have f2 := sprintf02d_twoDigits s 8 (hd 8 (by simp)) (hd 9 (by simp))
  have f3 := sprintf02d_twoDigits s 11 (hd 11 (by simp)) (hd 12 (by simp))
  have f4 := sprintf02d_twoDigits s 14 (hd 14 (by simp)) (hd 15 (by simp))
  have f5 := sprintf02d_twoDigits s 17 (hd 17 (by simp)) (hd 18 (by simp))
  simp only [getCurrentDateTime, readBytes_clock, hregs, DateTime.get, DateTimeComponent_t.toNat,
    f0, f1, f2, f3, f4, f5]
  conv_rhs => rw [eq_of_length_nineteen s hlen]
  simp [cstr, c0, c1, c4, c7, c10, c13, c16]

/-- Witness of C6 at the text "2099-12-31T23:59:59". -/
theorem iso8601_round_trip_witness :
    IsISO8601InRange (cstr "2099-12-31T23:59:59")
    ∧ (getCurrentDateTime 0
        (synchronize 0 (setDateTimeFromISO8601 (cstr "2099-12-31T23:59:59") exampleDriver)).2).1
      = cstr "2099-12-31T23:59:59" :=
  ⟨by decide,
   iso8601_round_trip 0 (cstr "2099-12-31T23:59:59") exampleDriver (by decide) (by decide)⟩

/-- C7 (as the claim states it, refuted): for the text
"Tue, 15 Nov 1994 08:12:31 GMT" the parser leaves a record whose year is 2094,
not 1994; the other fields are those of the text. -/
theorem setDateTimeFromHTTPHeader_year_1994_counterexample :
    decodeRecord (setDateTimeFromHTTPHeader (cstr "Tue, 15 Nov 1994 08:12:31 GMT")
        exampleDriver)._dateTime
      = { second := 31, minute := 12, hour := 8, dayOfWeek := 2, dayOfMonth := 15, month := 11,
          year := 94 }
    ∧ recordYear (setDateTimeFromHTTPHeader (cstr "Tue, 15 Nov 1994 08:12:31 GMT")
        exampleDriver)._dateTime = 2094
    ∧ recordYear (setDateTimeFromHTTPHeader (cstr "Tue, 15 Nov 1994 08:12:31 GMT")
        exampleDriver)._dateTime ≠ 1994 := by
  decide

/-- C7 (amended): for every well-formed HTTP-date text
`Www, DD Mon YYYY hh:mm:ss GMT`, `setDateTimeFromHTTPHeader` sets the record to
the second, minute, hour, weekday, day and month that the text denotes, and to
the year 2000 plus the last two digits of YYYY (which is YYYY exactly for the
years 2000 to 2099); from any state the text "Tue, 15 Nov 1994 08:12:31 GMT"
yields year 2094, month 11, day 15, weekday Tuesday (2), hour 8, minute 12,
second 31. -/
theorem setDateTimeFromHTTPHeader_decodes (w d m y hh mm ss : Nat) (self : RV3028C7)
    (hw : w ≤ 6) (hd : 1 ≤ d ∧ d ≤ 31) (hm : 1 ≤ m ∧ m ≤ 12) (_hy : y ≤ 9999)
    (hhh : hh ≤ 23) (hmm : mm ≤ 59) (hss : ss ≤ 59) :
    (decodeRecord (setDateTimeFromHTTPHeader (httpDate w d m y hh mm ss) self)._dateTime
        = { second := ss, minute := mm, hour := hh, dayOfWeek := w, dayOfMonth := d, month := m,
            year := y % 100 }
      ∧ recordYear (setDateTimeFromHTTPHeader (httpDate w d m y hh mm ss) self)._dateTime
        = 2000 + y % 100)
    ∧ (decodeRecord (setDateTimeFromHTTPHeader (cstr "Tue, 15 Nov 1994 08:12:31 GMT")
          self)._dateTime
        = { second := 31, minute := 12, hour := 8, dayOfWeek := 2, dayOfMonth := 15,
            month := 11, year := 94 }
      ∧ recordYear (setDateTimeFromHTTPHeader (cstr "Tue, 15 Nov 1994 08:12:31 GMT")
          self)._dateTime = 2094) := by
  have main : ∀ w d m y hh mm ss : Nat, w ≤ 6 → 1 ≤ d ∧ d ≤ 31 → 1 ≤ m ∧ m ≤ 12 →
      hh ≤ 23 → mm ≤ 59 → ss ≤ 59 →
      decodeRecord (setDateTimeFromHTTPHeader (httpDate w d m y hh mm ss) self)._dateTime
        = { second := ss, minute := mm, hour := hh, dayOfWeek := w, dayOfMonth := d, month := m,
            year := y % 100 } := by
    intro w d m y hh mm ss hw hd hm hhh hmm hss
    rw [setDateTimeFromHTTPHeader_httpDate w d m y hh mm ss self hw hm (by omega) (by omega)
      (by omega) (by omega),
      setDateTime_valid _ _ _ _ _ _ _ self (by omega) hm hd hw hhh hmm hss]
    have e1 : w % 256 = w := by omega
    have e2 : (2000 + y % 100 - 2000) % 256 = y % 100 := by omega
    simp only [decodeRecord, e1, e2]
    rw [decimal_of_bcd ss (by omega), decimal_of_bcd mm (by omega),
      decimal_of_bcd hh (by omega), decimal_of_bcd w (by omega),
      decimal_of_bcd d (by omega), decimal_of_bcd m (by omega),
      decimal_of_bcd (y % 100) (by omega)]
  have hex : cstr "Tue, 15 Nov 1994 08:12:31 GMT" = httpDate 2 15 11 1994 8 12 31 := by decide
  have h1 := main w d m y hh mm ss hw hd hm hhh hmm hss
  have h2 := main 2 15 11 1994 8 12 31 (by decide) (by decide) (by decide) (by decide)
    (by decide) (by decide)
  rw [← hex] at h2
  refine ⟨⟨h1, ?_⟩, h2, ?_⟩
  · have := congrArg DateTime.year h1
    simpa [recordYear, decodeRecord] using this
  · have := congrArg DateTime.year h2
    simp only [decodeRecord] at this
    simp only [recordYear, this]

/-- Witness of C7 (amended) at the text "Sat, 29 Feb 2020 23:59:58 GMT", whose
year lies in the window 2000 to 2099. -/
theorem setDateTimeFromHTTPHeader_decodes_witness :
    httpDate 6 29 2 2020 23 59 58 = cstr "Sat, 29 Feb 2020 23:59:58 GMT"
    ∧ decodeRecord (setDateTimeFromHTTPHeader (httpDate 6 29 2 2020 23 59 58)
        exampleDriver)._dateTime
      = { second := 58, minute := 59, hour := 23, dayOfWeek := 6, dayOfMonth := 29, month := 2,
          year := 2020 % 100 }
    ∧ recordYear (setDateTimeFromHTTPHeader (httpDate 6 29 2 2020 23 59 58)
        exampleDriver)._dateTime = 2000 + 2020 % 100 :=
  ⟨by decide,
   (setDateTimeFromHTTPHeader_decodes 6 29 2 2020 23 59 58 exampleDriver (by decide) (by decide)
      (by decide) (by decide) (by decide) (by decide) (by decide)).1⟩

/-- C8: for every text s whose first character is not `D`, and every starting
state, `setDateTimeFromHTTPHeader` on `"Date: "` followed by s leaves the driver
in exactly the state that `setDateTimeFromHTTPHeader` on s leaves it in. -/
theorem setDateTimeFromHTTPHeader_date_prefix (s : List Nat) (self : RV3028C7)
    (h : charAt s 0 ≠ 'D'.toNat) :
    setDateTimeFromHTTPHeader (cstr "Date: " ++ s) self = setDateTimeFromHTTPHeader s self := by
  have hD : charAt (cstr "Date: " ++ s) 0 = 'D'.toNat := by simp [charAt, cstr]
  have p := charAt_date_prefix s
  unfold setDateTimeFromHTTPHeader
  simp only [if_pos hD, if_neg h, httpDayOfWeek, httpMonth, httpTimeLoop, Nat.reduceAdd,
    Nat.zero_add, Nat.reduceLT, if_true, if_false, p 0, p 1, p 5, p 6, p 8, p 9, p 10, p 14, p 15, p 17,
    p 18, p 20, p 21, p 23, p 24]

/-- Witness of C8 at s = "Sun, 06 Nov 1994 08:49:37 GMT". -/
theorem setDateTimeFromHTTPHeader_date_prefix_witness :
    charAt (cstr "Sun, 06 Nov 1994 08:49:37 GMT") 0 ≠ 'D'.toNat
    ∧ setDateTimeFromHTTPHeader (cstr "Date: Sun, 06 Nov 1994 08:49:37 GMT") exampleDriver
      = setDateTimeFromHTTPHeader (cstr "Sun, 06 Nov 1994 08:49:37 GMT") exampleDriver :=
  ⟨by decide,
   setDateTimeFromHTTPHeader_date_prefix (cstr "Sun, 06 Nov 1994 08:49:37 GMT") exampleDriver
     (by decide)⟩

/-- C9: for every content of the clock registers, every prior record, every
component c and every value v, `setDateTimeComponent c v` followed by a
`synchronize` that reports success leaves every clock register other than that
of c with the content it had, and the register of c with `convertToBCD v`. -/
theorem setDateTimeComponent_synchronize_frame (REG_CLOCK_SECONDS : Nat)
    (c : DateTimeComponent_t) (v : Nat) (self : RV3028C7)
    (hsync : (synchronize REG_CLOCK_SECONDS
      (setDateTimeComponent REG_CLOCK_SECONDS c v self)).1 = true) :
    (∀ c' : DateTimeComponent_t, c' ≠ c →
      (synchronize REG_CLOCK_SECONDS
          (setDateTimeComponent REG_CLOCK_SECONDS c v self)).2._i2cPort.regs
        (REG_CLOCK_SECONDS + c'.toNat)
        = self._i2cPort.regs (REG_CLOCK_SECONDS + c'.toNat))
    ∧ (synchronize REG_CLOCK_SECONDS
          (setDateTimeComponent REG_CLOCK_SECONDS c v self)).2._i2cPort.regs
        (REG_CLOCK_SECONDS + c.toNat)
      = convertToBCD v := by
  obtain ⟨hregs, -⟩ := synchronize_ok REG_CLOCK_SECONDS _ hsync
  rw [setDateTimeComponent_dateTime] at hregs
  constructor
  · intro c' hc
    rw [regs_eq_get, regs_eq_get, hregs, get_set_other _ _ _ _ hc]
  · rw [regs_eq_get, hregs, get_set_same]

/-- Witness of C9: on the example driver, setting the hour to 17 and
synchronizing puts 0x17 in the hour register and leaves the minute register. -/
theorem setDateTimeComponent_synchronize_frame_witness :
    (synchronize 0 (setDateTimeComponent 0 DATETIME_HOUR 17 exampleDriver)).1 = true
    ∧ (synchronize 0 (setDateTimeComponent 0 DATETIME_HOUR 17 exampleDriver)).2._i2cPort.regs
        (0 + DATETIME_MINUTE.toNat)
      = exampleDriver._i2cPort.regs (0 + DATETIME_MINUTE.toNat)
    ∧ (synchronize 0 (setDateTimeComponent 0 DATETIME_HOUR 17 exampleDriver)).2._i2cPort.regs
        (0 + DATETIME_HOUR.toNat)
      = convertToBCD 17 :=
  ⟨by decide,
   (setDateTimeComponent_synchronize_frame 0 DATETIME_HOUR 17 exampleDriver (by decide)).1
     DATETIME_MINUTE (by decide),
   (setDateTimeComponent_synchronize_frame 0 DATETIME_HOUR 17 exampleDriver (by decide)).2⟩

/-- C10: uncommitted `setDateTime` edits are lost by `setDateTimeComponent`.
For every content of the clock registers and any two argument tuples, the
record after `setDateTime` with the first tuple and then
`setDateTimeComponent c v` equals the record after `setDateTime` with the
second tuple and then `setDateTimeComponent c v`, namely the register contents
with field c replaced by `convertToBCD v`; whereas with a `synchronize` that
reports success between the two calls, every field other than c holds the
value that the record had after `setDateTime`. -/
theorem setDateTimeComponent_discards_edits (REG_CLOCK_SECONDS : Nat)
    (year month dayOfMonth dayOfWeek hour minute second : Nat)
    (year' month' dayOfMonth' dayOfWeek' hour' minute' second' : Nat)
    (c : DateTimeComponent_t) (v : Nat) (self : RV3028C7) :
    ((setDateTimeComponent REG_CLOCK_SECONDS c v
        (setDateTime year month dayOfMonth dayOfWeek hour minute second self).2)._dateTime
      = (setDateTimeComponent REG_CLOCK_SECONDS c v
        (setDateTime year' month' dayOfMonth' dayOfWeek' hour' minute' second' self).2)._dateTime
    ∧ (setDateTimeComponent REG_CLOCK_SECONDS c v
        (setDateTime year month dayOfMonth dayOfWeek hour minute second self).2)._dateTime
      = (clockRegisters REG_CLOCK_SECONDS self._i2cPort).set c.toNat (convertToBCD v))
    ∧ ((synchronize REG_CLOCK_SECONDS
          (setDateTime year month dayOfMonth dayOfWeek hour minute second self).2).1 = true →
        (setDateTimeComponent REG_CLOCK_SECONDS c v
          (synchronize REG_CLOCK_SECONDS
            (setDateTime year month dayOfMonth dayOfWeek hour minute second self).2).2)._dateTime
        = (setDateTime year month dayOfMonth dayOfWeek hour minute second self).2._dateTime.set
            c.toNat (convertToBCD v)
        ∧ ∀ c' : DateTimeComponent_t, c' ≠ c →
          (setDateTimeComponent REG_CLOCK_SECONDS c v
            (synchronize REG_CLOCK_SECONDS
              (setDateTime year month dayOfMonth dayOfWeek hour minute second
                self).2).2)._dateTime.get c'.toNat
          = (setDateTime year month dayOfMonth dayOfWeek hour minute second
              self).2._dateTime.get c'.toNat) := by
  refine ⟨⟨?_, ?_⟩, ?_⟩
  · rw [setDateTimeComponent_dateTime, setDateTimeComponent_dateTime, setDateTime_i2cPort,
      setDateTime_i2cPort]
  · rw [setDateTimeComponent_dateTime, setDateTime_i2cPort]
  · intro hsync
    obtain ⟨hregs, -⟩ := synchronize_ok REG_CLOCK_SECONDS _ hsync
    have hrec : (setDateTimeComponent REG_CLOCK_SECONDS c v
          (synchronize REG_CLOCK_SECONDS
            (setDateTime year month dayOfMonth dayOfWeek hour minute second self).2).2)._dateTime
        = (setDateTime year month dayOfMonth dayOfWeek hour minute second self).2._dateTime.set
            c.toNat (convertToBCD v) := by
      rw [setDateTimeComponent_dateTime, hregs]
    refine ⟨hrec, ?_⟩
    intro c' hc
    rw [hrec, get_set_other _ _ _ _ hc]

/-- Witness of C10: the registers hold zeros; without a synchronize the edits
of 2024-02-29 and of 2018-01-01 are both lost when the hour is set to 17, and
with a synchronize in between the edits of 2024-02-29 survive in the fields
other than the hour. -/
theorem setDateTimeComponent_discards_edits_witness :
    (setDateTimeComponent 0 DATETIME_HOUR 17
        (setDateTime 2024 2 29 4 23 59 58 exampleDriver).2)._dateTime
      = (setDateTimeComponent 0 DATETIME_HOUR 17
        (setDateTime 2018 1 1 0 8 0 0 exampleDriver).2)._dateTime
    ∧ (synchronize 0 (setDateTime 2024 2 29 4 23 59 58 exampleDriver).2).1 = true
    ∧ (setDateTimeComponent 0 DATETIME_HOUR 17
          (synchronize 0 (setDateTime 2024 2 29 4 23 59 58 exampleDriver).2).2)._dateTime
      = (setDateTime 2024 2 29 4 23 59 58 exampleDriver).2._dateTime.set
          DATETIME_HOUR.toNat (convertToBCD 17) :=
  ⟨(setDateTimeComponent_discards_edits 0 2024 2 29 4 23 59 58 2018 1 1 0 8 0 0
      DATETIME_HOUR 17 exampleDriver).1.1,
   by decide,
   ((setDateTimeComponent_discards_edits 0 2024 2 29 4 23 59 58 2018 1 1 0 8 0 0
      DATETIME_HOUR 17 exampleDriver).2 (by decide)).1⟩

/-- C11 (the code at the failing input, and at every input): `begin` returns
false for every byte read from the control register, also for a byte whose
bit 0 is cleared, because `value & 0x01 == 0x00` is `value & (0x01 == 0x00)`,
that is `value & 0`. -/
theorem begin_returns_false (REG_CONTROL_2 : Nat) (wirePort : TwoWire) (self : RV3028C7) :
    (begin REG_CONTROL_2 wirePort self).1 = false
    ∧ (begin 16 { regs := fun _ => 0, status := 0 } exampleDriver).1 = false
    ∧ readByteFromRegister 16 { exampleDriver with _i2cPort := { regs := fun _ => 0, status := 0 } }
        % 2 = 0 := by
  refine ⟨?_, ?_, rfl⟩ <;> simp [begin]

/-- C12 (as the claim states it, refuted): `setDateTime` returns true for the
year 2100 with the other fields valid, and the year field then decodes to 100,
outside [0,99]. -/
theorem setDateTime_year_2100_counterexample :
    (setDateTime 2100 1 1 0 0 0 0 exampleDriver).1 = true
    ∧ (decodeRecord (setDateTime 2100 1 1 0 0 0 0 exampleDriver).2._dateTime).year = 100
    ∧ ¬ (decodeRecord (setDateTime 2100 1 1 0 0 0 0 exampleDriver).2._dateTime).year ≤ 99 := by
  decide

/-- C12 (amended): whenever `setDateTime` returns true, the fields of the
record decode through `convertToDecimal` to seconds and minutes in [0,59],
hours in [0,23], day-of-month in [1,31], month in [1,12] and day-of-week in
[0,6]; the year decodes to a value in [0,99] when the year argument is at most
2099. -/
theorem setDateTime_true_ranges (year month dayOfMonth dayOfWeek hour minute second : Nat)
    (self : RV3028C7)
    (h : (setDateTime year month dayOfMonth dayOfWeek hour minute second self).1 = true) :
    (decodeRecord
        (setDateTime year month dayOfMonth dayOfWeek hour minute second self).2._dateTime).second
      ≤ 59
    ∧ (decodeRecord
        (setDateTime year month dayOfMonth dayOfWeek hour minute second self).2._dateTime).minute
      ≤ 59
    ∧ (decodeRecord
        (setDateTime year month dayOfMonth dayOfWeek hour minute second self).2._dateTime).hour
      ≤ 23
    ∧ (1 ≤ (decodeRecord (setDateTime year month dayOfMonth dayOfWeek hour minute second
          self).2._dateTime).dayOfMonth
      ∧ (decodeRecord (setDateTime year month dayOfMonth dayOfWeek hour minute second
          self).2._dateTime).dayOfMonth ≤ 31)
    ∧ (1 ≤ (decodeRecord (setDateTime year month dayOfMonth dayOfWeek hour minute second
          self).2._dateTime).month
      ∧ (decodeRecord (setDateTime year month dayOfMonth dayOfWeek hour minute second
          self).2._dateTime).month ≤ 12)
    ∧ (decodeRecord
        (setDateTime year month dayOfMonth dayOfWeek hour minute second self).2._dateTime).dayOfWeek
      ≤ 6
    ∧ (year ≤ 2099 →
      (decodeRecord
        (setDateTime year month dayOfMonth dayOfWeek hour minute second self).2._dateTime).year
      ≤ 99) := by
  obtain ⟨hy, hm, hd, hw, hh, hmi, hs⟩ := setDateTime_true_valid _ _ _ _ _ _ _ self h
  rw [setDateTime_valid year month dayOfMonth dayOfWeek hour minute second self
    hy hm hd hw hh hmi hs]
  have e1 : dayOfWeek % 256 = dayOfWeek := by omega
  simp only [decodeRecord, e1]
  rw [decimal_of_bcd second (by omega), decimal_of_bcd minute (by omega),
    decimal_of_bcd hour (by omega), decimal_of_bcd dayOfWeek (by omega),
    decimal_of_bcd dayOfMonth (by omega), decimal_of_bcd month (by omega)]
  refine ⟨hs, hmi, hh, hd, hm, hw, ?_⟩
  intro hy2
  have e2 : (year - 2000) % 256 = year - 2000 := by omega
  rw [e2, decimal_of_bcd (year - 2000) (by omega)]
  omega

/-- Witness of C12 (amended) at 2099-12-31, a Thursday, 23:59:59. -/
theorem setDateTime_true_ranges_witness :
    (setDateTime 2099 12 31 4 23 59 59 exampleDriver).1 = true
    ∧ (decodeRecord (setDateTime 2099 12 31 4 23 59 59 exampleDriver).2._dateTime).second ≤ 59
    ∧ (decodeRecord (setDateTime 2099 12 31 4 23 59 59 exampleDriver).2._dateTime).year ≤ 99 :=
  ⟨by decide,
   (setDateTime_true_ranges 2099 12 31 4 23 59 59 exampleDriver (by decide)).1,
   (setDateTime_true_ranges 2099 12 31 4 23 59 59 exampleDriver (by decide)).2.2.2.2.2.2
     (by decide)⟩

/-- C16: year wrap by truncation. For every 16-bit year >= 2000 with the other
fields valid, `setDateTime` returns true and stores in the year field the byte
((k / 10) * 16 + k % 10) mod 256 with k = (year - 2000) mod 256; for the years
2000 to 2099 this is `convertToBCD (year - 2000)`, with high nibble the tens and
low nibble the units of year - 2000, and a year beyond 2099 is accepted and
stored wrapped (2356 is stored as the byte 0xA0, like 2100). -/
theorem setDateTime_year_wrap (year month dayOfMonth dayOfWeek hour minute second : Nat)
    (self : RV3028C7) (hy : 2000 ≤ year) (hy16 : year < 65536) (hm : 1 ≤ month ∧ month ≤ 12)
    (hd : 1 ≤ dayOfMonth ∧ dayOfMonth ≤ 31) (hw : dayOfWeek ≤ 6) (hh : hour ≤ 23)
    (hmi : minute ≤ 59) (hs : second ≤ 59) :
    (setDateTime year month dayOfMonth dayOfWeek hour minute second self).1 = true
    ∧ (setDateTime year month dayOfMonth dayOfWeek hour minute second self).2._dateTime.year
      = (((year - 2000) % 256 / 10) * 16 + (year - 2000) % 256 % 10) % 256
    ∧ (year ≤ 2099 →
      (setDateTime year month dayOfMonth dayOfWeek hour minute second self).2._dateTime.year
        = convertToBCD (year - 2000)
      ∧ (setDateTime year month dayOfMonth dayOfWeek hour minute second self).2._dateTime.year
        = (year - 2000) / 10 * 16 + (year - 2000) % 10)
    ∧ ((setDateTime 2356 month dayOfMonth dayOfWeek hour minute second self).1 = true
      ∧ (setDateTime 2356 month dayOfMonth dayOfWeek hour minute second self).2._dateTime.year
        = 0xA0
      ∧ (setDateTime 2100 month dayOfMonth dayOfWeek hour minute second self).2._dateTime.year
        = 0xA0) := by
  have hv := setDateTime_valid year month dayOfMonth dayOfWeek hour minute second self
    hy hm hd hw hh hmi hs
  have hv2 := setDateTime_valid 2356 month dayOfMonth dayOfWeek hour minute second self
    (by omega) hm hd hw hh hmi hs
  have hv3 := setDateTime_valid 2100 month dayOfMonth dayOfWeek hour minute second self
    (by omega) hm hd hw hh hmi hs
  rw [hv, hv2, hv3]
  have ea : convertToBCD ((2356 - 2000) % 256) = 0xA0 := by decide
  have eb : convertToBCD ((2100 - 2000) % 256) = 0xA0 := by decide
  refine ⟨rfl, rfl, ?_, rfl, ea, eb⟩
  intro hy2
  have e2 : (year - 2000) % 256 = year - 2000 := by omega
  simp only [e2]
  refine ⟨trivial, ?_⟩
  unfold convertToBCD
  omega

/-- Witness of C16 at the year 2356: k = 356 mod 256 = 100, stored as 0xA0. -/
theorem setDateTime_year_wrap_witness :
    (setDateTime 2356 2 29 4 23 59 58 exampleDriver).1 = true
    ∧ (setDateTime 2356 2 29 4 23 59 58 exampleDriver).2._dateTime.year
      = (((2356 - 2000) % 256 / 10) * 16 + (2356 - 2000) % 256 % 10) % 256 :=
  ⟨(setDateTime_year_wrap 2356 2 29 4 23 59 58 exampleDriver (by decide) (by decide) (by decide)
      (by decide) (by decide) (by decide) (by decide) (by decide)).1,
   (setDateTime_year_wrap 2356 2 29 4 23 59 58 exampleDriver (by decide) (by decide) (by decide)
      (by decide) (by decide) (by decide) (by decide) (by decide)).2.1⟩

/-- C19: reverse BCD round trip. For every byte b whose high nibble and low
nibble are both at most 9, `convertToBCD (convertToDecimal b) = b`, and b
decodes to a value of at most 99; and for every d in [0,99], `convertToBCD d`
is a byte with high nibble d / 10 and low nibble d % 10, both at most 9. -/
theorem convertToBCD_convertToDecimal (b d : Nat) (hb : b < 256) (hhi : b / 16 ≤ 9)
    (hlo : b % 16 ≤ 9) (hd : d ≤ 99) :
    (convertToBCD (convertToDecimal b) = b ∧ convertToDecimal b ≤ 99)
    ∧ (convertToBCD d < 256 ∧ convertToBCD d / 16 = d / 10 ∧ convertToBCD d % 16 = d % 10
      ∧ convertToBCD d / 16 ≤ 9 ∧ convertToBCD d % 16 ≤ 9) := by
  exact ⟨bcd_of_decimal b hb hhi hlo, bcd_nibbles d hd⟩

/-- Witness of C19 at the byte 0x59 and the decimal 59. -/
theorem convertToBCD_convertToDecimal_witness :
    (convertToBCD (convertToDecimal 0x59) = 0x59 ∧ convertToDecimal 0x59 ≤ 99)
    ∧ (convertToBCD 59 < 256 ∧ convertToBCD 59 / 16 = 59 / 10 ∧ convertToBCD 59 % 16 = 59 % 10
      ∧ convertToBCD 59 / 16 ≤ 9 ∧ convertToBCD 59 % 16 ≤ 9) :=
  convertToBCD_convertToDecimal 0x59 59 (by decide) (by decide) (by decide) (by decide)

/-- C14: for every well-formed HTTP-date text `Www, DD Mon 20YY hh:mm:ss GMT`,
with or without the prefix `Date: `, where Www is the abbreviation of the
weekday w (Sun = 0 .. Sat = 6), Mon that of the month m (Jan = 1 .. Dec = 12),
DD a two-digit day in 01-31 and the time in range, `setDateTimeFromHTTPHeader`
has exactly the effect of `setDateTime (2000 + YY) m DD w hh mm ss`. -/
theorem setDateTimeFromHTTPHeader_eq_setDateTime (w d m yy hh mm ss : Nat) (self : RV3028C7)
    (hw : w ≤ 6) (hd : 1 ≤ d ∧ d ≤ 31) (hm : 1 ≤ m ∧ m ≤ 12) (hyy : yy ≤ 99)
    (hhh : hh ≤ 23) (hmm : mm ≤ 59) (hss : ss ≤ 59) :
    setDateTimeFromHTTPHeader (httpDate w d m (2000 + yy) hh mm ss) self
      = (setDateTime (2000 + yy) m d w hh mm ss self).2
    ∧ setDateTimeFromHTTPHeader (cstr "Date: " ++ httpDate w d m (2000 + yy) hh mm ss) self
      = (setDateTime (2000 + yy) m d w hh mm ss self).2 := by
  have hmod : (2000 + yy) % 100 = yy := by omega
  have h1 := setDateTimeFromHTTPHeader_httpDate w d m (2000 + yy) hh mm ss self hw hm
    (by omega) (by omega) (by omega) (by omega)
  rw [hmod] at h1
  refine ⟨h1, ?_⟩
  rw [httpHeader_skips_date_tag _ self (charAt_httpDate_zero w d m (2000 + yy) hh mm ss hw),
    h1]

/-- Witness of C14 at the text "Thu, 31 Dec 2099 23:59:59 GMT", with and
without the prefix. -/
theorem setDateTimeFromHTTPHeader_eq_setDateTime_witness :
    (httpDate 4 31 12 (2000 + 99) 23 59 59 = cstr "Thu, 31 Dec 2099 23:59:59 GMT"
      ∧ cstr "Date: " ++ httpDate 4 31 12 (2000 + 99) 23 59 59
        = cstr "Date: Thu, 31 Dec 2099 23:59:59 GMT")
    ∧ setDateTimeFromHTTPHeader (httpDate 4 31 12 (2000 + 99) 23 59 59) exampleDriver
      = (setDateTime (2000 + 99) 12 31 4 23 59 59 exampleDriver).2
    ∧ setDateTimeFromHTTPHeader (cstr "Date: " ++ httpDate 4 31 12 (2000 + 99) 23 59 59)
        exampleDriver
      = (setDateTime (2000 + 99) 12 31 4 23 59 59 exampleDriver).2 :=
  ⟨by decide,
   setDateTimeFromHTTPHeader_eq_setDateTime 4 31 12 99 23 59 59 exampleDriver (by decide)
     (by decide) (by decide) (by decide) (by decide) (by decide) (by decide)⟩

/-- C15: the effect of `setDateTimeFromISO8601` depends only on the twelve
characters at the zero-based positions 2, 3, 5, 6, 8, 9, 11, 12, 14, 15, 17, 18:
two texts of length at least 19 that agree on these positions lead from the
same starting state to the same state, so to the same record. -/
theorem setDateTimeFromISO8601_depends_on_digits (s t : List Nat) (self : RV3028C7)
    (_hs : 19 ≤ s.length) (_ht : 19 ≤ t.length)
    (h : ∀ i ∈ [2, 3, 5, 6, 8, 9, 11, 12, 14, 15, 17, 18], charAt s i = charAt t i) :
    setDateTimeFromISO8601 s self = setDateTimeFromISO8601 t self
    ∧ (setDateTimeFromISO8601 s self)._dateTime = (setDateTimeFromISO8601 t self)._dateTime := by
  have main : setDateTimeFromISO8601 s self = setDateTimeFromISO8601 t self := by
    simp only [setDateTimeFromISO8601, iso8601Loop, Nat.reduceLT, if_true, if_false,
      Nat.reduceAdd, h 2 (by simp), h 3 (by simp), h 5 (by simp), h 6 (by simp), h 8 (by simp),
      h 9 (by simp), h 11 (by simp), h 12 (by simp), h 14 (by simp), h 15 (by simp),
      h 17 (by simp), h 18 (by simp)]
  exact ⟨main, by rw [main]⟩

/-- Witness of C15: a text with another century, other separators and a
sub-second and time-zone suffix gives the record of "2018-01-01T08:00:00". -/
theorem setDateTimeFromISO8601_depends_on_digits_witness :
    (19 ≤ (cstr "2018-01-01T08:00:00").length ∧ 19 ≤ (cstr "1918/01/01 08.00.00,25+02:00").length)
    ∧ (setDateTimeFromISO8601 (cstr "2018-01-01T08:00:00") exampleDriver)._dateTime
      = (setDateTimeFromISO8601 (cstr "1918/01/01 08.00.00,25+02:00") exampleDriver)._dateTime :=
  ⟨by decide,
   (setDateTimeFromISO8601_depends_on_digits (cstr "2018-01-01T08:00:00")
      (cstr "1918/01/01 08.00.00,25+02:00") exampleDriver (by decide) (by decide)
      (by decide)).2⟩

/-- C18: for every input text the weekday that `setDateTimeFromHTTPHeader`
computes lies in [0,6] and the month it computes lies in [1,12]; a weekday
name that begins with none of T, S, M, W is read as Friday (5) and a month name
that begins with none of J, F, M, A, S, O, N as December (12). The parser
leaves the state of the call of `setDateTime` with the year, month, day,
weekday, hour, minute and second it has read; in that call the month check and
the weekday check are never violated, and the call returns false exactly when
the check of the year, the day of the month, the hour, the minute or the second
is violated. -/
theorem httpHeader_weekday_month_range (str : List Nat) (counter : Nat) (self : RV3028C7) :
    (httpDayOfWeek str counter ≤ 6
      ∧ 1 ≤ httpMonth str counter ∧ httpMonth str counter ≤ 12)
    ∧ ((charAt str counter ≠ 'T'.toNat ∧ charAt str counter ≠ 'S'.toNat
          ∧ charAt str counter ≠ 'M'.toNat ∧ charAt str counter ≠ 'W'.toNat) →
        httpDayOfWeek str counter = 5)
    ∧ ((charAt str counter ≠ 'J'.toNat ∧ charAt str counter ≠ 'F'.toNat
          ∧ charAt str counter ≠ 'M'.toNat ∧ charAt str counter ≠ 'A'.toNat
          ∧ charAt str counter ≠ 'S'.toNat ∧ charAt str counter ≠ 'O'.toNat
          ∧ charAt str counter ≠ 'N'.toNat) →
        httpMonth str counter = 12)
    ∧ setDateTimeFromHTTPHeader str self = (httpHeaderDelegate str self).2
    ∧ setDateTimeFromHTTPHeader str self
      = (setDateTime
          ((2000 + atoi [charAt str (httpStart str + 14), charAt str (httpStart str + 15), 0])
            % 65536).toNat
          (httpMonth str (httpStart str + 8))
          (atoiComponents (charAt str (httpStart str + 5)) (charAt str (httpStart str + 6)))
          (httpDayOfWeek str (httpStart str))
          (atoiComponents (charAt str (httpStart str + 17)) (charAt str (httpStart str + 18)))
          (atoiComponents (charAt str (httpStart str + 20)) (charAt str (httpStart str + 21)))
          (atoiComponents (charAt str (httpStart str + 23)) (charAt str (httpStart str + 24)))
          self).2
    ∧ (¬ (httpMonth str (httpStart str + 8) < 1 ∨ httpMonth str (httpStart str + 8) > 12)
      ∧ ¬ httpDayOfWeek str (httpStart str) > 6)
    ∧ ((setDateTime
          ((2000 + atoi [charAt str (httpStart str + 14), charAt str (httpStart str + 15), 0])
            % 65536).toNat
          (httpMonth str (httpStart str + 8))
          (atoiComponents (charAt str (httpStart str + 5)) (charAt str (httpStart str + 6)))
          (httpDayOfWeek str (httpStart str))
          (atoiComponents (charAt str (httpStart str + 17)) (charAt str (httpStart str + 18)))
          (atoiComponents (charAt str (httpStart str + 20)) (charAt str (httpStart str + 21)))
          (atoiComponents (charAt str (httpStart str + 23)) (charAt str (httpStart str + 24)))
          self).1 = false
        ↔ (((2000 + atoi [charAt str (httpStart str + 14), charAt str (httpStart str + 15), 0])
              % 65536).toNat < 2000
          ∨ (atoiComponents (charAt str (httpStart str + 5)) (charAt str (httpStart str + 6)) < 1
            ∨ atoiComponents (charAt str (httpStart str + 5)) (charAt str (httpStart str + 6))
              > 31)
          ∨ atoiComponents (charAt str (httpStart str + 17)) (charAt str (httpStart str + 18))
            > 23
          ∨ atoiComponents (charAt str (httpStart str + 20)) (charAt str (httpStart str + 21))
            > 59
          ∨ atoiComponents (charAt str (httpStart str + 23)) (charAt str (httpStart str + 24))
            > 59)) := by
  have hmr := httpMonth_range str (httpStart str + 8)
  have hwr := httpDayOfWeek_le str (httpStart str)
  refine ⟨⟨httpDayOfWeek_le str counter, httpMonth_range str counter⟩, ?_, ?_,
    setDateTimeFromHTTPHeader_delegate str self, setDateTimeFromHTTPHeader_delegate str self,
    ⟨by omega, by omega⟩, ?_⟩
  · rintro ⟨h1, h2, h3, h4⟩
    unfold httpDayOfWeek
    rw [if_neg h1, if_neg h2, if_neg h3, if_neg h4]
  · rintro ⟨h1, h2, h3, h4, h5, h6, h7⟩
    unfold httpMonth
    rw [if_neg h1, if_neg h2, if_neg h3, if_neg h4, if_neg h5, if_neg h6, if_neg h7]
  · constructor
    · intro hf
      exact setDateTime_false_other _ _ _ _ _ _ _ self hmr hwr hf
    · intro hbad
      cases hres : (setDateTime
          ((2000 + atoi [charAt str (httpStart str + 14), charAt str (httpStart str + 15), 0])
            % 65536).toNat
          (httpMonth str (httpStart str + 8))
          (atoiComponents (charAt str (httpStart str + 5)) (charAt str (httpStart str + 6)))
          (httpDayOfWeek str (httpStart str))
          (atoiComponents (charAt str (httpStart str + 17)) (charAt str (httpStart str + 18)))
          (atoiComponents (charAt str (httpStart str + 20)) (charAt str (httpStart str + 21)))
          (atoiComponents (charAt str (httpStart str + 23)) (charAt str (httpStart str + 24)))
          self).1 with
      | false => rfl
      | true =>
        have hv := setDateTime_true_valid _ _ _ _ _ _ _ self hres
        omega

/-- Witness of C18: the text "Xxx, 32 Zzz 2094 08:12:31 GMT" has an unknown
weekday and an unknown month, read as Friday and December; the call of
`setDateTime` that the parser makes returns false, and the check violated is
one of the five named ones (here that of the day, 32). -/
theorem httpHeader_weekday_month_range_witness :
    (httpDayOfWeek (cstr "Xxx, 32 Zzz 2094 08:12:31 GMT") 0 = 5
      ∧ httpMonth (cstr "Xxx, 32 Zzz 2094 08:12:31 GMT") 8 = 12
      ∧ (httpHeaderDelegate (cstr "Xxx, 32 Zzz 2094 08:12:31 GMT") exampleDriver).1 = false
      ∧ atoiComponents
          (charAt (cstr "Xxx, 32 Zzz 2094 08:12:31 GMT")
            (httpStart (cstr "Xxx, 32 Zzz 2094 08:12:31 GMT") + 5))
          (charAt (cstr "Xxx, 32 Zzz 2094 08:12:31 GMT")
            (httpStart (cstr "Xxx, 32 Zzz 2094 08:12:31 GMT") + 6)) = 32)
    ∧ setDateTimeFromHTTPHeader (cstr "Xxx, 32 Zzz 2094 08:12:31 GMT") exampleDriver
      = (httpHeaderDelegate (cstr "Xxx, 32 Zzz 2094 08:12:31 GMT") exampleDriver).2
    ∧ (((2000 + atoi [charAt (cstr "Xxx, 32 Zzz 2094 08:12:31 GMT")
                (httpStart (cstr "Xxx, 32 Zzz 2094 08:12:31 GMT") + 14),
              charAt (cstr "Xxx, 32 Zzz 2094 08:12:31 GMT")
                (httpStart (cstr "Xxx, 32 Zzz 2094 08:12:31 GMT") + 15), 0])
            % 65536).toNat < 2000
        ∨ (atoiComponents
              (charAt (cstr "Xxx, 32 Zzz 2094 08:12:31 GMT")
                (httpStart (cstr "Xxx, 32 Zzz 2094 08:12:31 GMT") + 5))
              (charAt (cstr "Xxx, 32 Zzz 2094 08:12:31 GMT")
                (httpStart (cstr "Xxx, 32 Zzz 2094 08:12:31 GMT") + 6)) < 1
          ∨ atoiComponents
              (charAt (cstr "Xxx, 32 Zzz 2094 08:12:31 GMT")
                (httpStart (cstr "Xxx, 32 Zzz 2094 08:12:31 GMT") + 5))
              (charAt (cstr "Xxx, 32 Zzz 2094 08:12:31 GMT")
                (httpStart (cstr "Xxx, 32 Zzz 2094 08:12:31 GMT") + 6)) > 31)
        ∨ atoiComponents
            (charAt (cstr "Xxx, 32 Zzz 2094 08:12:31 GMT")
              (httpStart (cstr "Xxx, 32 Zzz 2094 08:12:31 GMT") + 17))
            (charAt (cstr "Xxx, 32 Zzz 2094 08:12:31 GMT")
              (httpStart (cstr "Xxx, 32 Zzz 2094 08:12:31 GMT") + 18)) > 23
        ∨ atoiComponents
            (charAt (cstr "Xxx, 32 Zzz 2094 08:12:31 GMT")
              (httpStart (cstr "Xxx, 32 Zzz 2094 08:12:31 GMT") + 20))
            (charAt (cstr "Xxx, 32 Zzz 2094 08:12:31 GMT")
              (httpStart (cstr "Xxx, 32 Zzz 2094 08:12:31 GMT") + 21)) > 59
        ∨ atoiComponents
            (charAt (cstr "Xxx, 32 Zzz 2094 08:12:31 GMT")
              (httpStart (cstr "Xxx, 32 Zzz 2094 08:12:31 GMT") + 23))
            (charAt (cstr "Xxx, 32 Zzz 2094 08:12:31 GMT")
              (httpStart (cstr "Xxx, 32 Zzz 2094 08:12:31 GMT") + 24)) > 59) :=
  ⟨by decide,
   (httpHeader_weekday_month_range (cstr "Xxx, 32 Zzz 2094 08:12:31 GMT") 0
      exampleDriver).2.2.2.1,
   (httpHeader_weekday_month_range (cstr "Xxx, 32 Zzz 2094 08:12:31 GMT") 0
      exampleDriver).2.2.2.2.2.2.1 (by decide)⟩

/-- C13 (as the claim states it, refuted): the parsers hand no boolean to
their caller. From a state whose record holds 2018-01-01 08:00:00, the text
"2018-01-01T08:00:60", whose delegated call returns false, and the text
"2018-01-01T08:00:00", whose delegated call returns true, leave the same state,
and likewise for the HTTP-date parser; so nothing that the caller gets from a
parser tells a failure of the delegated call from a success. -/
theorem parsers_report_no_failure_counterexample :
    ((iso8601Delegate (cstr "2018-01-01T08:00:60")
          driver2018).1 = false
      ∧ (iso8601Delegate (cstr "2018-01-01T08:00:00")
          driver2018).1 = true
      ∧ setDateTimeFromISO8601 (cstr "2018-01-01T08:00:60")
          driver2018
        = setDateTimeFromISO8601 (cstr "2018-01-01T08:00:00")
          driver2018)
    ∧ ((httpHeaderDelegate (cstr "Mon, 01 Jan 2018 08:00:60 GMT")
          driver2018).1
        = false
      ∧ (httpHeaderDelegate (cstr "Mon, 01 Jan 2018 08:00:00 GMT")
          driver2018).1
        = true
      ∧ setDateTimeFromHTTPHeader (cstr "Mon, 01 Jan 2018 08:00:60 GMT")
          driver2018
        = setDateTimeFromHTTPHeader (cstr "Mon, 01 Jan 2018 08:00:00 GMT")
          driver2018)
    ∧ (¬ ∃ report : RV3028C7 → Bool, ∀ (s : List Nat) (self : RV3028C7),
        report (setDateTimeFromISO8601 s self) = (iso8601Delegate s self).1)
    ∧ (¬ ∃ report : RV3028C7 → Bool, ∀ (s : List Nat) (self : RV3028C7),
        report (setDateTimeFromHTTPHeader s self) = (httpHeaderDelegate s self).1) := by
  have iso : setDateTimeFromISO8601 (cstr "2018-01-01T08:00:60")
          driver2018
        = setDateTimeFromISO8601 (cstr "2018-01-01T08:00:00")
          driver2018 :=
    state_eq _ _ (by simp only [setDateTimeFromISO8601_i2cPort]) (by decide)
  have http : setDateTimeFromHTTPHeader (cstr "Mon, 01 Jan 2018 08:00:60 GMT")
          driver2018
        = setDateTimeFromHTTPHeader (cstr "Mon, 01 Jan 2018 08:00:00 GMT")
          driver2018 :=
    state_eq _ _ (by simp only [setDateTimeFromHTTPHeader_i2cPort]) (by decide)
  have i1 : (iso8601Delegate (cstr "2018-01-01T08:00:60")
      driver2018).1 = false := by decide
  have i2 : (iso8601Delegate (cstr "2018-01-01T08:00:00")
      driver2018).1 = true := by decide
  have g1 : (httpHeaderDelegate (cstr "Mon, 01 Jan 2018 08:00:60 GMT")
      driver2018).1
        = false := by decide
  have g2 : (httpHeaderDelegate (cstr "Mon, 01 Jan 2018 08:00:00 GMT")
      driver2018).1
        = true := by decide
  refine ⟨⟨i1, i2, iso⟩, ⟨g1, g2, http⟩, ?_, ?_⟩
  · rintro ⟨report, hr⟩
    have a := hr (cstr "2018-01-01T08:00:60")
      driver2018
    have b := hr (cstr "2018-01-01T08:00:00")
      driver2018
    rw [iso, b, i1, i2] at a
    cases a
  · rintro ⟨report, hr⟩
    have a := hr (cstr "Mon, 01 Jan 2018 08:00:60 GMT")
      driver2018
    have b := hr (cstr "Mon, 01 Jan 2018 08:00:00 GMT")
      driver2018
    rw [http, b, g1, g2] at a
    cases a

/-- C13 (amended): a validation failure is not surfaced by the parsers.
`setDateTimeFromISO8601` and `setDateTimeFromHTTPHeader` return no value; for
every text and state, whether the call of `setDateTime` they delegate to
returns true or false, what they leave is the state that the call leaves, with
the bus untouched. For the ISO text "2018-13-01T08:00:00" (month 13) the
delegated call returns false and the parser leaves the record with only its
year field written. -/
theorem parsers_drop_setDateTime_result (s : List Nat) (self : RV3028C7) :
    (setDateTimeFromISO8601 s self = (iso8601Delegate s self).2
      ∧ (setDateTimeFromISO8601 s self)._i2cPort = self._i2cPort)
    ∧ (setDateTimeFromHTTPHeader s self = (httpHeaderDelegate s self).2
      ∧ (setDateTimeFromHTTPHeader s self)._i2cPort = self._i2cPort)
    ∧ ((iso8601Delegate (cstr "2018-13-01T08:00:00") self).1 = false
      ∧ (setDateTimeFromISO8601 (cstr "2018-13-01T08:00:00") self)._dateTime
        = { self._dateTime with year := 0x18 }) := by
  refine ⟨⟨setDateTimeFromISO8601_delegate s self, setDateTimeFromISO8601_i2cPort s self⟩,
    ⟨setDateTimeFromHTTPHeader_delegate s self, setDateTimeFromHTTPHeader_i2cPort s self⟩, ?_⟩
  have e2 : atoiComponents (charAt (cstr "2018-13-01T08:00:00") 2)
      (charAt (cstr "2018-13-01T08:00:00") 3) = 18 := by decide
  have e5 : atoiComponents (charAt (cstr "2018-13-01T08:00:00") 5)
      (charAt (cstr "2018-13-01T08:00:00") 6) = 13 := by decide
  obtain ⟨bus, ⟨a0, a1, a2, a3, a4, a5, a6⟩⟩ := self
  rw [setDateTimeFromISO8601_delegate]
  simp only [iso8601Delegate, e2, e5, setDateTime]
  constructor <;> rfl

/-- C17 (the code at the failing input): when all seven clock registers hold
the byte 0xFF, each of the six printed fields decodes to 165 and
`getCurrentDateTime` produces the text "20165-165-165T165:165:165" of 25
characters, more than the 22 that fit the 23-byte buffer with the terminator. -/
theorem getCurrentDateTime_overflows_buffer :
    clockRegisters 0 allOnesDriver._i2cPort = ⟨0xFF, 0xFF, 0xFF, 0xFF, 0xFF, 0xFF, 0xFF⟩
    ∧ (getCurrentDateTime 0 allOnesDriver).1 = cstr "20165-165-165T165:165:165"
    ∧ ((getCurrentDateTime 0 allOnesDriver).1).length = 25
    ∧ ¬ ((getCurrentDateTime 0 allOnesDriver).1).length ≤ 22 := by
  decide

end Rtc
